import Mathlib

/-!
Shallow embedding of the Lost & Found matching engine
(`src/functions/index.js` — the Firebase Cloud Functions side — and
`src/dashboard.js` — the client side).

Modelling conventions:
* JavaScript strings are `List Char` (`Str`); a missing/`undefined` string
  field is the empty list where the source only tests truthiness.
* JavaScript numbers used for scores are modelled as `ℚ` during the score
  accumulation and as `Int` after `Math.round`; timestamps are `Nat`.
  An `Option Nat` field models a possibly-absent numeric field; JS
  truthiness of a number is "present and nonzero".
* Firestore collections are Lean lists inside a `Store` record; `addDoc`
  is list append, queries are `filter`/`any`.
* `Array.prototype.sort` with comparator `(a, b) => b.score - a.score` is
  stable (ES2019), so it is embedded as a stable insertion sort by
  descending score.
* `toLowerCase` is modelled on ASCII (`Char.toLower`); every non-ASCII
  character is removed by the following `replace(/[^a-z0-9\s]/g, '')`
  either way.
-/

namespace LostFound

abbrev Str := List Char

def str (s : String) : Str := s.toList

/-- Whitespace characters recognised by the embedding of the JS regexes
`\s` and of `String.prototype.trim`. -/
def isWsChar (c : Char) : Bool :=
  c = ' ' || c = '\t' || c = '\n' || c = '\r' || c = '\x0b' || c = '\x0c'

/-- Characters kept by `replace(/[^a-z0-9\s]/g, '')` other than whitespace. -/
def isLowerAlnum (c : Char) : Bool :=
  ('a' ≤ c && c ≤ 'z') || ('0' ≤ c && c ≤ '9')

/-- `text.split(/\s+/)`, embedded as a split at every whitespace character.
The JS regex collapses whitespace runs while this version produces an empty
token per extra separator; the surrounding `filter (length > 2)` removes
empty tokens, so the composed keyword extractor agrees with the source. -/
def splitWs : Str → List Str
  | [] => [[]]
  | c :: cs =>
    if isWsChar c then [] :: splitWs cs
    else
      match splitWs cs with
      | [] => [[c]]
      | w :: ws => (c :: w) :: ws

/-- `String.prototype.trim`. -/
def trimStr (l : Str) : Str :=
  ((l.dropWhile isWsChar).reverse.dropWhile isWsChar).reverse

/-- The `STOP_WORDS` set, identical in `functions/index.js` and
`dashboard.js`. -/
def STOP_WORDS : List Str :=
  ["a", "an", "the", "is", "are", "was", "were", "be", "been",
   "being", "have", "has", "had", "do", "does", "did", "will",
   "would", "could", "should", "may", "might", "must", "shall",
   "can", "need", "to", "of", "in", "for", "on", "with", "at",
   "by", "from", "as", "into", "through", "during", "before",
   "after", "above", "below", "between", "under", "again",
   "further", "then", "once", "here", "there", "when", "where",
   "why", "how", "all", "each", "few", "more", "most", "other",
   "some", "such", "no", "nor", "not", "only", "own", "same",
   "so", "than", "too", "very", "just", "and", "but", "if", "or",
   "because", "until", "while", "my", "i", "me", "we", "our",
   "you", "your", "he", "she", "it", "they", "them", "his", "her",
   "its", "their", "this", "that", "these", "those", "lost", "found",
   "please", "help", "anyone", "someone", "near", "around", "today",
   "yesterday", "morning", "evening", "night", "afternoon"].map String.toList

/-- `extractKeywords` (`functions/index.js` lines 51–60; the dashboard
one-liner at `dashboard.js` line 41 is the same pipeline). -/
def extractKeywords (text : Str) : List Str :=
  if text = [] then []
  else
    ((splitWs ((text.map Char.toLower).filter
        (fun c => isLowerAlnum c || isWsChar c))).filter
      (fun w => decide (w.length > 2) && !(STOP_WORDS.contains w))).take 20

/-- `normalizeLocation` (`functions/index.js` lines 67–70). -/
def normalizeLocation (loc : Str) : Str :=
  if loc = [] then [] else trimStr (loc.map Char.toLower)

/-- `normalizeLocation` as written in `dashboard.js` line 42
(`loc?.toLowerCase().trim() || ''`). -/
def normalizeLocationD (loc : Str) : Str :=
  trimStr (loc.map Char.toLower)

-- ==================== DATA MODEL ====================

/-- An item document in the `items` collection.  String fields that the
source only tests for truthiness are `Str` with `[]` for absent;
`keywords`/`normalizedLocation` are the cached enrichment fields (absent
until the server trigger writes them); `expiresAt` is an absent-or-number
timestamp. -/
structure Item where
  id : Nat
  type : Str
  category : Str
  title : Str
  description : Str
  location : Str
  keywords : Option (List Str)
  normalizedLocation : Option Str
  uid : Nat
  email : Str
  status : Str
  expiresAt : Option Nat
  matchProcessed : Option Bool
deriving DecidableEq

/-- The `matchDetails` breakdown returned by both score calculators. -/
structure MatchDetails where
  category : Bool
  location : Bool
  keywordOverlap : Nat
  matchedKeywords : List Str
deriving DecidableEq

structure ScoreResult where
  score : Int
  matchDetails : MatchDetails
deriving DecidableEq

/-- A document of the `notifications` collection.  `emailSent` is only
written by the server dispatcher, hence optional. -/
structure Notification where
  userId : Nat
  userEmail : Str
  type : Str
  title : Str
  message : Str
  lostItemId : Nat
  foundItemId : Nat
  matchScore : Int
  matchDetails : MatchDetails
  read : Bool
  emailSent : Option Bool
deriving DecidableEq

/-- A document of the `matches` collection. -/
structure MatchRecord where
  lostItemId : Nat
  foundItemId : Nat
  score : Int
  matchedOn : MatchDetails
  status : Str
deriving DecidableEq

/-- The Firestore state visible to the matching engine. -/
structure Store where
  items : List Item
  notifications : List Notification
  «matches» : List MatchRecord
deriving DecidableEq

-- ==================== SCORE CALCULATOR ====================

def MATCH_THRESHOLD : Int := 50
def WEIGHTS_category : ℚ := 40
def WEIGHTS_location : ℚ := 30
def WEIGHTS_keywords : ℚ := 30

/-- `big.includes(small)` on strings. -/
def strIncludes (big small : Str) : Bool :=
  (List.range (big.length + 1)).any fun i => decide ((big.drop i).take small.length = small)

/-- `new Set(array)` keeps the first occurrence of each element, in order. -/
def dedupFirst : List Str → List Str
  | [] => []
  | x :: xs => x :: dedupFirst (xs.filter (fun y => y ≠ x))
termination_by l => l.length
decreasing_by
  simp only [List.length_cons]
  exact Nat.lt_succ_of_le (List.length_filter_le _ _)

/-- `item.keywords || extractKeywords(...)`: an array field is truthy in JS
even when empty, so a cached (possibly empty) list wins. -/
def itemKeywords (it : Item) : List Str :=
  match it.keywords with
  | some ks => ks
  | none => extractKeywords (it.title ++ str " " ++ it.description)

/-- `item.normalizedLocation || normalizeLocation(item.location)`: the
empty string is falsy, so an empty cached value falls through. -/
def itemNormLoc (it : Item) : Str :=
  match it.normalizedLocation with
  | some s => if s = [] then normalizeLocation it.location else s
  | none => normalizeLocation it.location

/-- The tiered location clause of `calculateMatchScore`, identical in both
sources (`functions/index.js` lines 97–116, `dashboard.js` lines 51–55). -/
def locationContribution (loc1 loc2 : Str) : ℚ × Bool :=
  if loc1 = [] ∨ loc2 = [] then (0, false)
  else if loc1 = loc2 then (WEIGHTS_location, true)
  else if strIncludes loc1 loc2 || strIncludes loc2 loc1 then
    (WEIGHTS_location * (7 / 10), true)
  else
    let words1 := splitWs loc1
    let words2 := splitWs loc2
    let commonWords := words1.filter (fun w => words2.contains w && decide (w.length > 2))
    if commonWords.length > 0 then (WEIGHTS_location * (1 / 2), true) else (0, false)

/-- The keyword clause of the server `calculateMatchScore`
(`functions/index.js` lines 118–134): contribution, overlap count, matched
keywords. -/
def keywordContribution (ks1 ks2 : List Str) : ℚ × Nat × List Str :=
  let kw1 := dedupFirst ks1
  let kw2 := dedupFirst ks2
  let intersection := kw1.filter (fun k => kw2.contains k)
  let union := dedupFirst (kw1 ++ kw2)
  if union.length > 0 ∧ intersection.length > 0 then
    let jaccardScore : ℚ := (intersection.length : ℚ) / (union.length : ℚ)
    let overlapBonus : ℚ := min ((intersection.length : ℚ) / 5) 1 * (3 / 10)
    ((jaccardScore + overlapBonus) * WEIGHTS_keywords, intersection.length, intersection.take 5)
  else (0, 0, [])

/-- The keyword clause as written in `dashboard.js` lines 57–63: the guard
tests only the intersection. -/
def keywordContributionD (ks1 ks2 : List Str) : ℚ × Nat × List Str :=
  let kw1 := dedupFirst ks1
  let kw2 := dedupFirst ks2
  let intersection := kw1.filter (fun k => kw2.contains k)
  if intersection.length > 0 then
    (((intersection.length : ℚ) / ((dedupFirst (kw1 ++ kw2)).length : ℚ)
        + min ((intersection.length : ℚ) / 5) 1 * (3 / 10)) * WEIGHTS_keywords,
      intersection.length, intersection.take 5)
  else (0, 0, [])

/-- JS `Math.round` for the non-negative values produced here. -/
def jsRound (x : ℚ) : Int := ⌊x + 1 / 2⌋

/-- `calculateMatchScore` (`functions/index.js` lines 78–140). -/
def calculateMatchScore (item1 item2 : Item) : ScoreResult :=
  let catHit := item1.category ≠ [] ∧ item2.category ≠ [] ∧ item1.category = item2.category
  let catScore : ℚ := if catHit then WEIGHTS_category else 0
  let locPair := locationContribution (itemNormLoc item1) (itemNormLoc item2)
  let kwTriple := keywordContribution (itemKeywords item1) (itemKeywords item2)
  let score := catScore + locPair.1 + kwTriple.1
  { score := jsRound (min score 100)
    matchDetails :=
      { category := decide catHit
        location := locPair.2
        keywordOverlap := kwTriple.2.1
        matchedKeywords := kwTriple.2.2 } }

/-- `calculateMatchScore` as written in `dashboard.js` lines 44–66: no
cached-field fallbacks, `item2.category` not separately tested, keyword
guard on the intersection only. -/
def calculateMatchScoreD (item1 item2 : Item) : ScoreResult :=
  let catHit := item1.category ≠ [] ∧ item1.category = item2.category
  let catScore : ℚ := if catHit then WEIGHTS_category else 0
  let locPair := locationContribution (normalizeLocationD item1.location) (normalizeLocationD item2.location)
  let kwTriple := keywordContributionD
    (extractKeywords (item1.title ++ str " " ++ item1.description))
    (extractKeywords (item2.title ++ str " " ++ item2.description))
  let score := catScore + locPair.1 + kwTriple.1
  { score := jsRound (min score 100)
    matchDetails :=
      { category := decide catHit
        location := locPair.2
        keywordOverlap := kwTriple.2.1
        matchedKeywords := kwTriple.2.2 } }

-- ==================== NOTIFICATION DISPATCHERS ====================

/-- The match record appended by both dispatchers
(`functions/index.js` lines 175–182, `dashboard.js` line 86). -/
def mkMatchRecord (lostItem foundItem : Item) (score : Int) (matchDetails : MatchDetails) : MatchRecord :=
  { lostItemId := lostItem.id
    foundItemId := foundItem.id
    score := score
    matchedOn := matchDetails
    status := str "pending" }

/-- The message of the lost-owner notification, shared by both sources. -/
def serverNotifMessage (lostItem foundItem : Item) : Str :=
  str "Your lost \"" ++ lostItem.title ++ str "\" may match a found item \"" ++
    foundItem.title ++ str "\" near \"" ++ foundItem.location ++ str "\"."

/-- The single notification built by the server dispatcher
(`functions/index.js` lines 156–169); it is addressed to the lost-item
owner. -/
def serverNotification (lostItem foundItem : Item) (score : Int) (matchDetails : MatchDetails) : Notification :=
  { userId := lostItem.uid
    userEmail := lostItem.email
    type := str "match_found"
    title := str "🎉 Potential Match Found!"
    message := serverNotifMessage lostItem foundItem
    lostItemId := lostItem.id
    foundItemId := foundItem.id
    matchScore := score
    matchDetails := matchDetails
    read := false
    emailSent := some false }

/-- `createNotification` (`functions/index.js` lines 149–185): same-owner
guard, then one notification to the lost-item owner plus one match
record. -/
def createNotification (st : Store) (lostItem foundItem : Item) (score : Int)
    (matchDetails : MatchDetails) : Store :=
  if lostItem.uid = foundItem.uid then st
  else
    { st with
      notifications := st.notifications ++ [serverNotification lostItem foundItem score matchDetails]
      «matches» := st.matches ++ [mkMatchRecord lostItem foundItem score matchDetails] }

/-- The dashboard's notification to the lost-item owner
(`dashboard.js` line 78); its message template coincides with the server
one. -/
def clientLostNotification (lostItem foundItem : Item) (score : Int) (matchDetails : MatchDetails) : Notification :=
  { userId := lostItem.uid
    userEmail := lostItem.email
    type := str "match_found"
    title := str "ğŸ‰ Potential Match Found!"
    message := serverNotifMessage lostItem foundItem
    lostItemId := lostItem.id
    foundItemId := foundItem.id
    matchScore := score
    matchDetails := matchDetails
    read := false
    emailSent := none }

def clientFoundNotifMessage (lostItem foundItem : Item) : Str :=
  str "Your found \"" ++ foundItem.title ++ str "\" may belong to someone who lost \"" ++
    lostItem.title ++ str "\"."

/-- The dashboard's notification to the found-item owner
(`dashboard.js` line 82). -/
def clientFoundNotification (lostItem foundItem : Item) (score : Int) (matchDetails : MatchDetails) : Notification :=
  { userId := foundItem.uid
    userEmail := foundItem.email
    type := str "match_found"
    title := str "ğŸ‰ Someone may be looking for this!"
    message := clientFoundNotifMessage lostItem foundItem
    lostItemId := lostItem.id
    foundItemId := foundItem.id
    matchScore := score
    matchDetails := matchDetails
    read := false
    emailSent := none }

/-- `createMatchNotification` (`dashboard.js` lines 72–88): same-owner
guard, then two notifications (lost-item owner, found-item owner) plus one
match record.  The browser push display is UI-only and outside the store. -/
def createMatchNotificationD (st : Store) (lostItem foundItem : Item) (score : Int)
    (matchDetails : MatchDetails) : Store :=
  if lostItem.uid = foundItem.uid then st
  else
    { st with
      notifications := st.notifications ++
        [clientLostNotification lostItem foundItem score matchDetails,
         clientFoundNotification lostItem foundItem score matchDetails]
      «matches» := st.matches ++ [mkMatchRecord lostItem foundItem score matchDetails] }

-- ==================== DEDUP GUARD AND MATCH FINDER ====================

/-- `matchExists` (`functions/index.js` lines 190–198, `dashboard.js`
lines 68–70): a query on the ordered `(lostItemId, foundItemId)` pair. -/
def matchExists (st : Store) (lostItemId foundItemId : Nat) : Bool :=
  st.matches.any fun m => m.lostItemId == lostItemId && m.foundItemId == foundItemId

/-- Number of match records stored for an ordered pair. -/
def recsFor (st : Store) (l f : Nat) : Nat :=
  (st.matches.filter fun m => m.lostItemId == l && m.foundItemId == f).length

/-- Number of notifications stored for an ordered pair. -/
def notifsFor (st : Store) (l f : Nat) : Nat :=
  (st.notifications.filter fun n => n.lostItemId == l && n.foundItemId == f).length

/-- The expiry skip of the server triggers
(`if (foundItem.expiresAt && foundItem.expiresAt < now) continue;`):
an absent or zero `expiresAt` is falsy and never skipped. -/
def isExpired (e : Option Nat) (now : Nat) : Bool :=
  match e with
  | none => false
  | some v => decide (v ≠ 0 ∧ v < now)

/-- The dashboard keep-condition `!expiresAt || expiresAt >= now`. -/
def keepExpiryD (e : Option Nat) (now : Nat) : Bool :=
  match e with
  | none => true
  | some v => v == 0 || decide (now ≤ v)

/-- A scored candidate (`{ item, score, matchDetails }`). -/
structure Cand where
  item : Item
  score : Int
  md : MatchDetails
deriving DecidableEq

/-- The candidate-collection loop shared by both server triggers: skip
expired pool items, score, keep those at or above the threshold, in
retrieval order (`functions/index.js` lines 236–254 and 308–323). -/
def candidatesBy (scoreOf : Item → ScoreResult) (pool : List Item) (now : Nat) : List Cand :=
  pool.filterMap fun it =>
    if isExpired it.expiresAt now then none
    else
      let r := scoreOf it
      if MATCH_THRESHOLD ≤ r.score then some ⟨it, r.score, r.matchDetails⟩ else none

/-- Stable insertion of a candidate into a score-descending list: the new
element goes after strictly higher scores and before equal ones, which is
how a stable sort with comparator `(a, b) => b.score - a.score` places
it. -/
def insertDesc (x : Cand) : List Cand → List Cand
  | [] => [x]
  | y :: ys => if x.score < y.score then y :: insertDesc x ys else x :: y :: ys

/-- `matches.sort((a, b) => b.score - a.score)` — stable (ES2019). -/
def sortDesc (l : List Cand) : List Cand := l.foldr insertDesc []

/-- `items/{itemId}` query restricted to one type and `status == "open"`. -/
def openOfType (st : Store) (ty : Str) : List Item :=
  st.items.filter fun it => it.type == ty && it.status == str "open"

-- ==================== TRIGGER ORCHESTRATION ====================

/-- `snap.ref.update({ keywords, normalizedLocation, matchProcessed })`
applied to the stored document with the trigger's id. -/
def updateEnrichment (st : Store) (id : Nat) (ks : List Str) (nl : Str) : Store :=
  { st with
    items := st.items.map fun it =>
      if it.id = id then
        { it with keywords := some ks, normalizedLocation := some nl,
                  matchProcessed := some true }
      else it }

/-- The `(lostItem, foundItem)` role assignment of the lost-item trigger:
the new item is the lost one. -/
def pairLost (newItem : Item) (c : Cand) : Item × Item := (newItem, c.item)

/-- The role assignment of the found-item trigger: the pool (lost) item
first, the new item second. -/
def pairFound (newItem : Item) (c : Cand) : Item × Item := (c.item, newItem)

/-- The role assignment of the dashboard loop
(`const [lost, found] = newItem.type === "lost" ? [newItem, m.item] : [m.item, newItem]`). -/
def pairD (newItem : Item) (c : Cand) : Item × Item :=
  if newItem.type = str "lost" then (newItem, c.item) else (c.item, newItem)

/-- The per-candidate notify loop common to the three call sites: Dedup
Guard, then dispatch, counting every dispatch attempt (the count is
incremented whether or not the dispatcher's same-owner guard fires). -/
def notifyLoop (dispatch : Store → Item → Item → Int → MatchDetails → Store)
    (pairOf : Cand → Item × Item) : List Cand → Store → Nat → Store × Nat
  | [], st, n => (st, n)
  | c :: cs, st, n =>
    let lf := pairOf c
    if matchExists st lf.1.id lf.2.id then notifyLoop dispatch pairOf cs st n
    else notifyLoop dispatch pairOf cs (dispatch st lf.1 lf.2 c.score c.md) (n + 1)

/-- The ranked candidate list computed by `onLostItemCreated`
(`functions/index.js` lines 229–261): found-type open pool, expiry skip,
threshold, stable sort by descending score, top 3.  Scoring receives the
enriched new item as first argument. -/
def rankedLost (st : Store) (newItem : Item) (now : Nat) (ks : List Str) (nl : Str) : List Cand :=
  (sortDesc (candidatesBy
    (fun f => calculateMatchScore { newItem with keywords := some ks, normalizedLocation := some nl } f)
    (openOfType st (str "found")) now)).take 3

/-- `onLostItemCreated` (`functions/index.js` lines 206–272).  Returns the
final store and the logged `notificationCount`. -/
def onLostItemCreated (st : Store) (newItem : Item) (now : Nat) : Store × Nat :=
  if newItem.type ≠ str "lost" then (st, 0)
  else
    let ks := extractKeywords (newItem.title ++ str " " ++ newItem.description)
    let nl := normalizeLocation newItem.location
    let st1 := updateEnrichment st newItem.id ks nl
    notifyLoop createNotification (pairLost newItem) (rankedLost st1 newItem now ks nl) st1 0

/-- The ranked candidate list computed by `onFoundItemCreated`
(`functions/index.js` lines 301–326): lost-type open pool; scoring receives
the pool (lost) item first and the enriched new item second. -/
def rankedFound (st : Store) (newItem : Item) (now : Nat) (ks : List Str) (nl : Str) : List Cand :=
  (sortDesc (candidatesBy
    (fun l => calculateMatchScore l { newItem with keywords := some ks, normalizedLocation := some nl })
    (openOfType st (str "lost")) now)).take 3

/-- `onFoundItemCreated` (`functions/index.js` lines 278–341). -/
def onFoundItemCreated (st : Store) (newItem : Item) (now : Nat) : Store × Nat :=
  if newItem.type ≠ str "found" then (st, 0)
  else
    let ks := extractKeywords (newItem.title ++ str " " ++ newItem.description)
    let nl := normalizeLocation newItem.location
    let st1 := updateEnrichment st newItem.id ks nl
    notifyLoop createNotification (pairFound newItem) (rankedFound st1 newItem now ks nl) st1 0

/-- The ranked candidate list of the dashboard `findMatches`
(`dashboard.js` lines 90–95): opposite-type open pool, score with the
client calculator, filter by threshold and non-expiry after scoring,
stable sort descending, top 3. -/
def rankedD (st : Store) (newItem : Item) (now : Nat) : List Cand :=
  let pool := openOfType st (if newItem.type = str "lost" then str "found" else str "lost")
  (sortDesc ((pool.map fun d =>
      let r := calculateMatchScoreD newItem d
      (⟨d, r.score, r.matchDetails⟩ : Cand)).filter
    fun m => decide (MATCH_THRESHOLD ≤ m.score) && keepExpiryD m.item.expiresAt now)).take 3

/-- `findMatches` (`dashboard.js` lines 90–103): returns the final store
and the returned `count`. -/
def findMatches (st : Store) (newItem : Item) (now : Nat) : Store × Nat :=
  notifyLoop createMatchNotificationD (pairD newItem) (rankedD st newItem now) st 0

-- ==================== FALLIBLE DISPATCH (error-handling model) ====================

/-- A store whose notification insert rejects for the listed found-item
ids; a successful insert behaves like `createNotification`. -/
def createNotificationE (failing : List Nat) (st : Store) (lostItem foundItem : Item)
    (score : Int) (matchDetails : MatchDetails) : Except Unit Store :=
  if foundItem.id ∈ failing then .error ()
  else .ok (createNotification st lostItem foundItem score matchDetails)

/-- The notify loop with fallible dispatch.  The source loops
(`functions/index.js` lines 261–268 and 330–337, `dashboard.js`
lines 98–101) have no `try`/`catch` around the awaited dispatch, so a
rejected write propagates out of the async function and ends the loop;
`Except` models that propagation, carrying the store and count reached at
the failure. -/
def notifyLoopE (dispatchE : Store → Item → Item → Int → MatchDetails → Except Unit Store)
    (pairOf : Cand → Item × Item) : List Cand → Store → Nat → Except (Store × Nat) (Store × Nat)
  | [], st, n => .ok (st, n)
  | c :: cs, st, n =>
    let lf := pairOf c
    if matchExists st lf.1.id lf.2.id then notifyLoopE dispatchE pairOf cs st n
    else
      match dispatchE st lf.1 lf.2 c.score c.md with
      | .error _ => .error (st, n)
      | .ok st' => notifyLoopE dispatchE pairOf cs st' (n + 1)

/-- The ranked list the lost-item trigger iterates over, after the
enrichment write. -/
def lostTriggerRanked (st : Store) (newItem : Item) (now : Nat) : List Cand :=
  rankedLost
    (updateEnrichment st newItem.id
      (extractKeywords (newItem.title ++ str " " ++ newItem.description))
      (normalizeLocation newItem.location))
    newItem now
    (extractKeywords (newItem.title ++ str " " ++ newItem.description))
    (normalizeLocation newItem.location)

/-- The ranked list the found-item trigger iterates over, after the
enrichment write. -/
def foundTriggerRanked (st : Store) (newItem : Item) (now : Nat) : List Cand :=
  rankedFound
    (updateEnrichment st newItem.id
      (extractKeywords (newItem.title ++ str " " ++ newItem.description))
      (normalizeLocation newItem.location))
    newItem now
    (extractKeywords (newItem.title ++ str " " ++ newItem.description))
    (normalizeLocation newItem.location)

-- ==================== DISPATCHER SPECIFICATIONS ====================

/-- What both dispatchers do to the store, as used by the loop lemmas:
items untouched; on a distinct-owner pair append exactly one match record
and the dispatcher's notification batch; on a same-owner pair leave the
store unchanged. -/
def DispatchSpec (d : Store → Item → Item → Int → MatchDetails → Store)
    (nfs : Item → Item → Int → MatchDetails → List Notification) : Prop :=
  ∀ st l f s m,
    (d st l f s m).items = st.items ∧
    (d st l f s m).matches = st.matches ++ (if l.uid = f.uid then [] else [mkMatchRecord l f s m]) ∧
    (d st l f s m).notifications =
      st.notifications ++ (if l.uid = f.uid then [] else nfs l f s m) ∧
    (l.uid = f.uid → d st l f s m = st)

/-- The notification batch has a fixed size and is addressed to the
dispatched pair. -/
def NotifSpec (nfs : Item → Item → Int → MatchDetails → List Notification) (k : Nat) : Prop :=
  ∀ l f s m, (nfs l f s m).length = k ∧
    ∀ n ∈ nfs l f s m, n.lostItemId = l.id ∧ n.foundItemId = f.id

/-- The server notification batch. -/
def serverBatch (l f : Item) (s : Int) (m : MatchDetails) : List Notification :=
  [serverNotification l f s m]

/-- The client notification batch. -/
def clientBatch (l f : Item) (s : Int) (m : MatchDetails) : List Notification :=
  [clientLostNotification l f s m, clientFoundNotification l f s m]

-- ==================== CONCRETE FIXTURES ====================

/-- A lost item with empty title, description and location and category
"bags". -/
def bareLostItem : Item :=
  ⟨1, str "lost", str "bags", [], [], [], none, none, 10, str "a@b", str "open", none, none⟩

/-- A found item identical to `bareLostItem` except id/uid/type. -/
def bareFoundItem : Item :=
  ⟨2, str "found", str "bags", [], [], [], none, none, 11, str "c@d", str "open", none, none⟩

def emptyStore : Store := ⟨[], [], []⟩

/-- A sample breakdown value. -/
def mdSample : MatchDetails := ⟨true, true, 0, []⟩

/-- A lost item at location "gate", category "bags": scores 70 against
`gateFoundItem` (category 40 + exact location 30). -/
def gateLostItem : Item :=
  ⟨1, str "lost", str "bags", [], [], str "gate", none, none, 10, str "a@b", str "open", none, none⟩

/-- The matching found item of the concrete runs. -/
def gateFoundItem : Item :=
  ⟨2, str "found", str "bags", [], [], str "gate", none, none, 11, str "c@d", str "open", none, none⟩

/-- The found item again, carrying the epoch timestamp `expiresAt = 0`,
which is falsy in JS. -/
def gateFoundItemExpired0 : Item :=
  ⟨2, str "found", str "bags", [], [], str "gate", none, none, 11, str "c@d", str "open", some 0, none⟩

/-- A store holding only `gateFoundItem`. -/
def gateStore : Store := ⟨[gateFoundItem], [], []⟩

/-- A store holding only `gateFoundItemExpired0`. -/
def gateStoreExpired0 : Store := ⟨[gateFoundItemExpired0], [], []⟩

/-- A second matching found item, with another id and owner. -/
def gateFoundItem2 : Item :=
  ⟨3, str "found", str "bags", [], [], str "gate", none, none, 12, str "e@f", str "open", none, none⟩

/-- A store that already holds the match record for the gate pair. -/
def recStore : Store := ⟨[], [], [mkMatchRecord gateLostItem gateFoundItem 70 mdSample]⟩

-- ==================== LEMMAS ====================

theorem normalizeLocation_eq_D (loc : Str) :
    normalizeLocation loc = normalizeLocationD loc := by
  cases loc <;> rfl

-- ==================== LEMMAS: keyword extraction ====================

theorem splitWs_ne_nil (l : Str) : splitWs l ≠ [] := by
  cases l with
  | nil => simp [splitWs]
  | cons c cs =>
    simp only [splitWs]
    split
    · simp
    · cases h : splitWs cs <;> simp

theorem mem_splitWs {w : Str} : ∀ {l : Str}, w ∈ splitWs l →
    ∀ c ∈ w, c ∈ l ∧ isWsChar c = false := by
  intro l
  induction l generalizing w with
  | nil =>
    intro hw c hc
    simp [splitWs] at hw
    subst hw
    simp at hc
  | cons c0 cs ih =>
    intro hw c hc
    simp only [splitWs] at hw
    by_cases h0 : isWsChar c0
    · simp only [h0, if_true, List.mem_cons] at hw
      rcases hw with hw | hw
      · subst hw; simp at hc
      · have := ih hw c hc
        exact ⟨List.mem_cons_of_mem _ this.1, this.2⟩
    · rw [if_neg h0] at hw
      rcases hsp : splitWs cs with _ | ⟨w0, ws⟩
      · exact absurd hsp (splitWs_ne_nil cs)
      · rw [hsp] at hw
        simp only [List.mem_cons] at hw
        rcases hw with hw | hw
        · subst hw
          rcases List.mem_cons.1 hc with hc | hc
          · subst hc
            exact ⟨List.mem_cons_self _ _, by simpa using h0⟩
          · have hw0 : w0 ∈ splitWs cs := by rw [hsp]; exact List.mem_cons_self _ _
            have := ih hw0 c hc
            exact ⟨List.mem_cons_of_mem _ this.1, this.2⟩
        · have hwmem : w ∈ splitWs cs := by rw [hsp]; exact List.mem_cons_of_mem _ hw
          have := ih hwmem c hc
          exact ⟨List.mem_cons_of_mem _ this.1, this.2⟩

theorem mem_extractKeywords {text w : Str} (hw : w ∈ extractKeywords text) :
    (∀ c ∈ w, isLowerAlnum c = true) ∧ 2 < w.length ∧ w ∉ STOP_WORDS := by
  unfold extractKeywords at hw
  split at hw
  · simp at hw
  · have hw' := List.mem_of_mem_take hw
    have hmem := List.mem_filter.1 hw'
    have hw2 := hmem.2
    simp only [Bool.and_eq_true, decide_eq_true_eq, Bool.not_eq_true'] at hw2
    refine ⟨?_, hw2.1, ?_⟩
    · intro c hc
      have := mem_splitWs hmem.1 c hc
      have hcf := this.1
      have hcw := this.2
      have := List.mem_filter.1 hcf
      have hkeep := this.2
      simp only [Bool.or_eq_true] at hkeep
      rcases hkeep with h | h
      · exact h
      · rw [h] at hcw; cases hcw
    · intro hmemSW
      have : STOP_WORDS.contains w = true := List.elem_eq_true_of_mem hmemSW
      rw [this] at hw2
      cases hw2.2

theorem extractKeywords_length_le (text : Str) : (extractKeywords text).length ≤ 20 := by
  unfold extractKeywords
  split
  · simp
  · exact le_trans (List.length_take_le _ _) (le_refl 20)

-- ==================== LEMMAS: dedupFirst ====================

theorem mem_dedupFirst {x : Str} : ∀ {l : List Str}, x ∈ dedupFirst l ↔ x ∈ l := by
  intro l
  induction l using dedupFirst.induct with
  | case1 => simp [dedupFirst]
  | case2 y ys ih =>
    rw [dedupFirst]
    simp only [List.mem_cons, ih, List.mem_filter, decide_eq_true_eq]
    constructor
    · rintro (h | ⟨h, _⟩)
      · exact Or.inl h
      · exact Or.inr h
    · rintro (h | h)
      · exact Or.inl h
      · by_cases hxy : x = y
        · exact Or.inl hxy
        · exact Or.inr ⟨h, by simpa using hxy⟩

theorem dedupFirst_ne_nil {l : List Str} (h : l ≠ []) : dedupFirst l ≠ [] := by
  cases l with
  | nil => exact absurd rfl h
  | cons x xs => rw [dedupFirst]; simp

theorem dedupFirst_append_of_subset : ∀ {l l' : List Str}, (∀ x ∈ l', x ∈ l) →
    dedupFirst (l ++ l') = dedupFirst l := by
  intro l
  induction l using dedupFirst.induct with
  | case1 =>
    intro l' h
    cases l' with
    | nil => rfl
    | cons y ys => exact absurd (h y (List.mem_cons_self _ _)) (by simp)
  | case2 y ys ih =>
    intro l' h
    rw [List.cons_append, dedupFirst, dedupFirst, List.filter_append]
    congr 1
    apply ih
    intro x hx
    have hx' := List.mem_filter.1 hx
    have hxl' : x ∈ l' := hx'.1
    have hxy : x ≠ y := by simpa using hx'.2
    rcases List.mem_cons.1 (h x hxl') with h1 | h1
    · exact absurd h1 hxy
    · exact List.mem_filter.2 ⟨h1, by simpa using hxy⟩

theorem dedupFirst_idem : ∀ (l : List Str), dedupFirst (dedupFirst l) = dedupFirst l := by
  intro l
  induction l using dedupFirst.induct with
  | case1 => simp [dedupFirst]
  | case2 y ys ih =>
    rw [dedupFirst, dedupFirst]
    congr 1
    have hfilter : (dedupFirst (ys.filter fun z => z ≠ y)).filter (fun z => z ≠ y) =
        dedupFirst (ys.filter fun z => z ≠ y) := by
      apply List.filter_eq_self.2
      intro a ha
      have : a ∈ ys.filter fun z => z ≠ y := mem_dedupFirst.1 ha
      exact (List.mem_filter.1 this).2
    rw [hfilter, ih]

-- ==================== LEMMAS: score calculator ====================

theorem locationContribution_nonneg (l1 l2 : Str) : 0 ≤ (locationContribution l1 l2).1 := by
  unfold locationContribution
  split
  · norm_num
  · split
    · norm_num [WEIGHTS_location]
    · split
      · norm_num [WEIGHTS_location]
      · dsimp only
        split <;> norm_num [WEIGHTS_location]

theorem keywordContribution_nonneg (ks1 ks2 : List Str) : 0 ≤ (keywordContribution ks1 ks2).1 := by
  unfold keywordContribution
  dsimp only
  split
  · have hj : (0 : ℚ) ≤ (((dedupFirst ks1).filter fun k => (dedupFirst ks2).contains k).length : ℚ) /
        ((dedupFirst (dedupFirst ks1 ++ dedupFirst ks2)).length : ℚ) :=
      div_nonneg (Nat.cast_nonneg _) (Nat.cast_nonneg _)
    have hb : (0 : ℚ) ≤ min ((((dedupFirst ks1).filter fun k => (dedupFirst ks2).contains k).length : ℚ) / 5) 1 * (3 / 10) := by
      apply mul_nonneg _ (by norm_num)
      exact le_min (div_nonneg (Nat.cast_nonneg _) (by norm_num)) (by norm_num)
    have := add_nonneg hj hb
    simpa [WEIGHTS_keywords] using mul_nonneg this (by norm_num : (0:ℚ) ≤ 30)
  · norm_num

theorem keywordContributionD_nonneg (ks1 ks2 : List Str) : 0 ≤ (keywordContributionD ks1 ks2).1 := by
  unfold keywordContributionD
  dsimp only
  split
  · have hj : (0 : ℚ) ≤ (((dedupFirst ks1).filter fun k => (dedupFirst ks2).contains k).length : ℚ) /
        ((dedupFirst (dedupFirst ks1 ++ dedupFirst ks2)).length : ℚ) :=
      div_nonneg (Nat.cast_nonneg _) (Nat.cast_nonneg _)
    have hb : (0 : ℚ) ≤ min ((((dedupFirst ks1).filter fun k => (dedupFirst ks2).contains k).length : ℚ) / 5) 1 * (3 / 10) := by
      apply mul_nonneg _ (by norm_num)
      exact le_min (div_nonneg (Nat.cast_nonneg _) (by norm_num)) (by norm_num)
    have := add_nonneg hj hb
    simpa [WEIGHTS_keywords] using mul_nonneg this (by norm_num : (0:ℚ) ≤ 30)
  · norm_num

theorem jsRound_nonneg {x : ℚ} (h : 0 ≤ x) : 0 ≤ jsRound x := by
  unfold jsRound
  rw [Int.le_floor]
  push_cast
  linarith

theorem jsRound_le_of_le {x : ℚ} {b : ℤ} (h : x ≤ (b : ℚ)) : jsRound x ≤ b := by
  unfold jsRound
  have : x + 1 / 2 < (b : ℚ) + 1 := by linarith
  have hlt : ⌊x + 1 / 2⌋ < b + 1 := by
    rw [Int.floor_lt]
    push_cast
    linarith
  omega

/-- The two keyword clauses agree: a non-empty intersection forces a
non-empty union. -/
theorem keywordContribution_eq_D (ks1 ks2 : List Str) :
    keywordContribution ks1 ks2 = keywordContributionD ks1 ks2 := by
  unfold keywordContribution keywordContributionD
  dsimp only
  by_cases hi : ((dedupFirst ks1).filter fun k => (dedupFirst ks2).contains k).length > 0
  · have hkw1 : dedupFirst ks1 ≠ [] := by
      intro hnil
      rw [hnil] at hi
      simp at hi
    have happ : dedupFirst ks1 ++ dedupFirst ks2 ≠ [] := by
      intro hnil
      exact hkw1 (List.append_eq_nil.1 hnil).1
    have hu : (dedupFirst (dedupFirst ks1 ++ dedupFirst ks2)).length > 0 :=
      List.length_pos.2 (dedupFirst_ne_nil happ)
    rw [if_pos ⟨hu, hi⟩, if_pos hi]
  · rw [if_neg (fun h => hi h.2), if_neg hi]

-- ==================== helper lemmas for exact scores ====================

theorem locationContribution_self {l : Str} (h : l ≠ []) :
    locationContribution l l = (WEIGHTS_location, true) := by
  unfold locationContribution
  rw [if_neg (by simp [h]), if_pos rfl]

theorem contains_eq_true_of_mem {l : List Str} {x : Str} (h : x ∈ l) : l.contains x = true := by
  simpa [List.contains] using List.elem_eq_true_of_mem h

theorem keywordContribution_self {ks : List Str} (h : dedupFirst ks ≠ []) :
    WEIGHTS_keywords ≤ (keywordContribution ks ks).1 := by
  unfold keywordContribution
  dsimp only
  have hfil : (dedupFirst ks).filter (fun k => (dedupFirst ks).contains k) = dedupFirst ks :=
    List.filter_eq_self.2 fun a ha => contains_eq_true_of_mem ha
  have huni : dedupFirst (dedupFirst ks ++ dedupFirst ks) = dedupFirst ks := by
    rw [dedupFirst_append_of_subset (fun x hx => hx), dedupFirst_idem]
  rw [hfil, huni]
  have hn : 0 < (dedupFirst ks).length := List.length_pos.2 h
  rw [if_pos ⟨hn, hn⟩]
  have hnq : ((dedupFirst ks).length : ℚ) ≠ 0 := by
    exact_mod_cast Nat.pos_iff_ne_zero.1 hn
  rw [div_self hnq]
  have hb : (0 : ℚ) ≤ min (((dedupFirst ks).length : ℚ) / 5) 1 * (3 / 10) := by
    apply mul_nonneg _ (by norm_num)
    exact le_min (div_nonneg (Nat.cast_nonneg _) (by norm_num)) (by norm_num)
  dsimp only
  simp only [WEIGHTS_keywords]
  nlinarith [hb]

theorem calculateMatchScore_score_eq (i1 i2 : Item) :
    (calculateMatchScore i1 i2).score =
      jsRound (min ((if i1.category ≠ [] ∧ i2.category ≠ [] ∧ i1.category = i2.category
          then WEIGHTS_category else 0)
        + (locationContribution (itemNormLoc i1) (itemNormLoc i2)).1
        + (keywordContribution (itemKeywords i1) (itemKeywords i2)).1) 100) := rfl

theorem calculateMatchScoreD_score_eq (i1 i2 : Item) :
    (calculateMatchScoreD i1 i2).score =
      jsRound (min ((if i1.category ≠ [] ∧ i1.category = i2.category
          then WEIGHTS_category else 0)
        + (locationContribution (normalizeLocationD i1.location) (normalizeLocationD i2.location)).1
        + (keywordContributionD (extractKeywords (i1.title ++ str " " ++ i1.description))
            (extractKeywords (i2.title ++ str " " ++ i2.description))).1) 100) := rfl

-- ==================== C7 ====================

/-- C7: for every input text, the keyword extractor returns at most 20
tokens, each consisting only of lowercase alphanumerics, of length
strictly greater than 2 and not a stop word; empty (or absent, embedded as
empty) input yields the empty sequence. -/
theorem C7_keyword_extractor_contract (text : Str) :
    (extractKeywords text).length ≤ 20 ∧
    (∀ w ∈ extractKeywords text,
      (∀ c ∈ w, isLowerAlnum c = true) ∧ 2 < w.length ∧ w ∉ STOP_WORDS) ∧
    extractKeywords [] = [] :=
  ⟨extractKeywords_length_le text, fun _ hw => mem_extractKeywords hw, rfl⟩

/-- C7 witness: the contract evaluated on a concrete text. -/
theorem C7_keyword_extractor_contract_witness :
    ((extractKeywords (str "Lost my black wallet near the library!")).length ≤ 20) ∧
    ((∀ c ∈ str "wallet", isLowerAlnum c = true) ∧ 2 < (str "wallet").length ∧
      str "wallet" ∉ STOP_WORDS) :=
  ⟨(C7_keyword_extractor_contract (str "Lost my black wallet near the library!")).1,
   (C7_keyword_extractor_contract (str "Lost my black wallet near the library!")).2.1
     (str "wallet") (by decide)⟩

-- ==================== C8 ====================

/-- C8: for every two items both score calculators return an integer in
[0, 100]; two items with empty category, location, title, description and
no cached enrichment score exactly 0 in both. -/
theorem C8_score_range_and_empty_zero (i1 i2 : Item) :
    (0 ≤ (calculateMatchScore i1 i2).score ∧ (calculateMatchScore i1 i2).score ≤ 100) ∧
    (0 ≤ (calculateMatchScoreD i1 i2).score ∧ (calculateMatchScoreD i1 i2).score ≤ 100) ∧
    (i1.category = [] → i1.location = [] → i1.title = [] → i1.description = [] →
      i1.keywords = none → i1.normalizedLocation = none →
      i2.category = [] → i2.location = [] → i2.title = [] → i2.description = [] →
      i2.keywords = none → i2.normalizedLocation = none →
      (calculateMatchScore i1 i2).score = 0 ∧ (calculateMatchScoreD i1 i2).score = 0) := by
  refine ⟨?_, ?_, ?_⟩
  · rw [calculateMatchScore_score_eq]
    have hc : (0 : ℚ) ≤ (if i1.category ≠ [] ∧ i2.category ≠ [] ∧ i1.category = i2.category
        then WEIGHTS_category else 0) := by
      split
      · norm_num [WEIGHTS_category]
      · norm_num
    have hl := locationContribution_nonneg (itemNormLoc i1) (itemNormLoc i2)
    have hk := keywordContribution_nonneg (itemKeywords i1) (itemKeywords i2)
    have htot : (0 : ℚ) ≤ (if i1.category ≠ [] ∧ i2.category ≠ [] ∧ i1.category = i2.category
        then WEIGHTS_category else 0)
        + (locationContribution (itemNormLoc i1) (itemNormLoc i2)).1
        + (keywordContribution (itemKeywords i1) (itemKeywords i2)).1 := by linarith
    constructor
    · exact jsRound_nonneg (le_min htot (by norm_num))
    · exact jsRound_le_of_le (le_trans (min_le_right _ _) (by norm_num))
  · rw [calculateMatchScoreD_score_eq]
    have hc : (0 : ℚ) ≤ (if i1.category ≠ [] ∧ i1.category = i2.category
        then WEIGHTS_category else 0) := by
      split
      · norm_num [WEIGHTS_category]
      · norm_num
    have hl := locationContribution_nonneg (normalizeLocationD i1.location)
      (normalizeLocationD i2.location)
    have hk := keywordContributionD_nonneg
      (extractKeywords (i1.title ++ str " " ++ i1.description))
      (extractKeywords (i2.title ++ str " " ++ i2.description))
    have htot : (0 : ℚ) ≤ (if i1.category ≠ [] ∧ i1.category = i2.category
        then WEIGHTS_category else 0)
        + (locationContribution (normalizeLocationD i1.location) (normalizeLocationD i2.location)).1
        + (keywordContributionD (extractKeywords (i1.title ++ str " " ++ i1.description))
            (extractKeywords (i2.title ++ str " " ++ i2.description))).1 := by linarith
    constructor
    · exact jsRound_nonneg (le_min htot (by norm_num))
    · exact jsRound_le_of_le (le_trans (min_le_right _ _) (by norm_num))
  · intro h1c h1l h1t h1d h1k h1n h2c h2l h2t h2d h2k h2n
    have hkw1 : itemKeywords i1 = [] := by
      simp only [itemKeywords, h1k, h1t, h1d, List.nil_append, List.append_nil]
      decide
    have hkw2 : itemKeywords i2 = [] := by
      simp only [itemKeywords, h2k, h2t, h2d, List.nil_append, List.append_nil]
      decide
    have hnl1 : itemNormLoc i1 = [] := by
      simp [itemNormLoc, h1n, h1l, normalizeLocation]
    have hnl2 : itemNormLoc i2 = [] := by
      simp [itemNormLoc, h2n, h2l, normalizeLocation]
    have hl0 : locationContribution [] [] = (0, false) := by
      simp [locationContribution]
    have hk0 : keywordContribution [] [] = (0, 0, []) := by
      simp [keywordContribution, dedupFirst]
    have hek1 : extractKeywords (i1.title ++ str " " ++ i1.description) = [] := by
      rw [h1t, h1d]
      decide
    have hek2 : extractKeywords (i2.title ++ str " " ++ i2.description) = [] := by
      rw [h2t, h2d]
      decide
    have hkd0 : keywordContributionD [] [] = (0, 0, []) := by
      simp [keywordContributionD, dedupFirst]
    have hnd1 : normalizeLocationD i1.location = [] := by
      rw [h1l]
      rfl
    have hnd2 : normalizeLocationD i2.location = [] := by
      rw [h2l]
      rfl
    constructor
    · rw [calculateMatchScore_score_eq, hkw1, hkw2, hnl1, hnl2,
        if_neg (by simp [h1c]), hl0, hk0]
      norm_num [jsRound]
    · rw [calculateMatchScoreD_score_eq, hek1, hek2, hnd1, hnd2,
        if_neg (by simp [h1c]), hl0, hkd0]
      norm_num [jsRound]

/-- C8 witness: the bounds and the all-empty case at concrete items. -/
theorem C8_score_range_and_empty_zero_witness :
    (0 ≤ (calculateMatchScore bareLostItem bareFoundItem).score ∧
      (calculateMatchScore bareLostItem bareFoundItem).score ≤ 100) ∧
    ((calculateMatchScore
        ⟨1, str "lost", [], [], [], [], none, none, 10, str "a@b", str "open", none, none⟩
        ⟨2, str "found", [], [], [], [], none, none, 11, str "c@d", str "open", none, none⟩).score = 0 ∧
      (calculateMatchScoreD
        ⟨1, str "lost", [], [], [], [], none, none, 10, str "a@b", str "open", none, none⟩
        ⟨2, str "found", [], [], [], [], none, none, 11, str "c@d", str "open", none, none⟩).score = 0) :=
  ⟨(C8_score_range_and_empty_zero bareLostItem bareFoundItem).1,
   (C8_score_range_and_empty_zero
      ⟨1, str "lost", [], [], [], [], none, none, 10, str "a@b", str "open", none, none⟩
      ⟨2, str "found", [], [], [], [], none, none, 11, str "c@d", str "open", none, none⟩).2.2
     rfl rfl rfl rfl rfl rfl rfl rfl rfl rfl rfl rfl⟩

-- ==================== C10 ====================

/-- C10: on items carrying no cached enrichment fields, the server and
client score calculators return the same score and the same match
details. -/
theorem C10_server_client_calculators_agree (i1 i2 : Item)
    (h1k : i1.keywords = none) (h1n : i1.normalizedLocation = none)
    (h2k : i2.keywords = none) (h2n : i2.normalizedLocation = none) :
    calculateMatchScore i1 i2 = calculateMatchScoreD i1 i2 := by
  have hk1 : itemKeywords i1 = extractKeywords (i1.title ++ str " " ++ i1.description) := by
    simp [itemKeywords, h1k]
  have hk2 : itemKeywords i2 = extractKeywords (i2.title ++ str " " ++ i2.description) := by
    simp [itemKeywords, h2k]
  have hn1 : itemNormLoc i1 = normalizeLocationD i1.location := by
    simp [itemNormLoc, h1n, normalizeLocation_eq_D]
  have hn2 : itemNormLoc i2 = normalizeLocationD i2.location := by
    simp [itemNormLoc, h2n, normalizeLocation_eq_D]
  have hcat : (i1.category ≠ [] ∧ i2.category ≠ [] ∧ i1.category = i2.category) ↔
      (i1.category ≠ [] ∧ i1.category = i2.category) := by
    constructor
    · rintro ⟨a, _, c⟩; exact ⟨a, c⟩
    · rintro ⟨a, c⟩; exact ⟨a, c ▸ a, c⟩
  unfold calculateMatchScore calculateMatchScoreD
  dsimp only
  rw [hk1, hk2, hn1, hn2, keywordContribution_eq_D,
    if_congr hcat rfl rfl, decide_eq_decide.2 hcat]

/-- C10 witness: agreement at concrete cache-free items. -/
theorem C10_server_client_calculators_agree_witness :
    calculateMatchScore
        ⟨1, str "lost", str "bags", str "Black Wallet", str "leather wallet", str "Main Library", none, none, 10, str "a@b", str "open", none, none⟩
        ⟨2, str "found", str "bags", str "Wallet", str "black leather", str "library", none, none, 11, str "c@d", str "open", none, none⟩
      = calculateMatchScoreD
        ⟨1, str "lost", str "bags", str "Black Wallet", str "leather wallet", str "Main Library", none, none, 10, str "a@b", str "open", none, none⟩
        ⟨2, str "found", str "bags", str "Wallet", str "black leather", str "library", none, none, 11, str "c@d", str "open", none, none⟩ :=
  C10_server_client_calculators_agree _ _ rfl rfl rfl rfl

-- ==================== C6 ====================

theorem bare_score_eq_40 : (calculateMatchScore bareLostItem bareFoundItem).score = 40 := by
  rw [calculateMatchScore_score_eq]
  have e1 : itemNormLoc bareLostItem = [] := rfl
  have e2 : itemNormLoc bareFoundItem = [] := rfl
  have e3 : itemKeywords bareLostItem = [] := rfl
  have e4 : itemKeywords bareFoundItem = [] := rfl
  have hl0 : locationContribution [] [] = (0, false) := by simp [locationContribution]
  have hk0 : keywordContribution [] [] = (0, 0, []) := by simp [keywordContribution, dedupFirst]
  rw [e1, e2, e3, e4, hl0, hk0, if_pos ⟨by decide, by decide, rfl⟩]
  norm_num [jsRound, WEIGHTS_category]

/-- C6 counterexample: two items with identical (empty) title+description,
identical non-empty category and identical (empty) location score 40, not
100 — the location clause needs a non-empty normalized location and the
keyword clause a non-empty intersection before they contribute. -/
theorem C6_identical_items_counterexample :
    bareLostItem.title = bareFoundItem.title ∧
    bareLostItem.description = bareFoundItem.description ∧
    bareLostItem.category = bareFoundItem.category ∧ bareLostItem.category ≠ [] ∧
    bareLostItem.location = bareFoundItem.location ∧
    (calculateMatchScore bareLostItem bareFoundItem).score = 40 ∧
    (calculateMatchScore bareLostItem bareFoundItem).score ≠ 100 :=
  ⟨rfl, rfl, rfl, by decide, rfl, bare_score_eq_40, by rw [bare_score_eq_40]; decide⟩

/-- C6 amended: identical non-empty category, identical non-empty
effective location, and identical effective keyword sets with at least one
keyword yield score exactly 100 (the clamp caps the keyword bonus). -/
theorem C6_identical_items_score_100 (i1 i2 : Item)
    (hcatne : i1.category ≠ []) (hcat : i1.category = i2.category)
    (hloc : itemNormLoc i1 = itemNormLoc i2) (hlocne : itemNormLoc i1 ≠ [])
    (hkw : itemKeywords i1 = itemKeywords i2)
    (hkwne : dedupFirst (itemKeywords i1) ≠ []) :
    (calculateMatchScore i1 i2).score = 100 := by
  rw [calculateMatchScore_score_eq]
  rw [if_pos ⟨hcatne, hcat ▸ hcatne, hcat⟩]
  rw [← hloc, locationContribution_self hlocne, ← hkw]
  have hkwb := keywordContribution_self hkwne
  have hmin : min (WEIGHTS_category + (WEIGHTS_location, true).1
      + (keywordContribution (itemKeywords i1) (itemKeywords i1)).1) 100 = 100 := by
    apply min_eq_right
    simp only [WEIGHTS_category, WEIGHTS_location, WEIGHTS_keywords] at *
    linarith
  rw [hmin]
  norm_num [jsRound]

/-- C6 amended witness: two concrete identical items score exactly 100. -/
theorem C6_identical_items_score_100_witness :
    (calculateMatchScore
        ⟨1, str "lost", str "bags", str "Black Wallet", str "leather", str "Main Gate", none, none, 10, str "a@b", str "open", none, none⟩
        ⟨2, str "found", str "bags", str "Black Wallet", str "leather", str "Main Gate", none, none, 11, str "c@d", str "open", none, none⟩).score = 100 :=
  C6_identical_items_score_100 _ _ (by decide) rfl rfl (by decide) rfl
    (dedupFirst_ne_nil (by decide))

-- ==================== LEMMAS: store counting ====================

theorem matchExists_eq_true_iff (st : Store) (l f : Nat) :
    matchExists st l f = true ↔ 0 < recsFor st l f := by
  rw [matchExists, List.any_eq_true, recsFor, List.length_pos, Ne, List.filter_eq_nil]
  push_neg
  simp only [Bool.not_eq_true, Bool.not_eq_false]

theorem createNotification_spec : DispatchSpec createNotification serverBatch := by
  intro st l f s m
  refine ⟨?_, ?_, ?_, ?_⟩ <;> unfold createNotification <;> split <;>
    simp_all [serverBatch]

theorem createMatchNotificationD_spec : DispatchSpec createMatchNotificationD clientBatch := by
  intro st l f s m
  refine ⟨?_, ?_, ?_, ?_⟩ <;> unfold createMatchNotificationD <;> split <;>
    simp_all [clientBatch]

theorem serverBatch_spec : NotifSpec serverBatch 1 := by
  intro l f s m
  constructor
  · rfl
  · intro n hn
    simp only [serverBatch, List.mem_singleton] at hn
    subst hn
    exact ⟨rfl, rfl⟩

theorem clientBatch_spec : NotifSpec clientBatch 2 := by
  intro l f s m
  constructor
  · rfl
  · intro n hn
    rcases List.mem_cons.1 hn with hn | hn
    · subst hn; exact ⟨rfl, rfl⟩
    · simp only [clientBatch, List.mem_singleton] at hn
      subst hn
      exact ⟨rfl, rfl⟩

-- ==================== LEMMAS: the notify loop ====================

section LoopLemmas

variable {d : Store → Item → Item → Int → MatchDetails → Store}
variable {p : Cand → Item × Item}
variable {nfs : Item → Item → Int → MatchDetails → List Notification}

theorem notifyLoop_items (hd : DispatchSpec d nfs) :
    ∀ (cs : List Cand) (st : Store) (n : Nat), (notifyLoop d p cs st n).1.items = st.items := by
  intro cs
  induction cs with
  | nil => intro st n; rfl
  | cons c cs ih =>
    intro st n
    rw [notifyLoop]
    split
    · exact ih st n
    · rw [ih]
      exact (hd st (p c).1 (p c).2 c.score c.md).1

theorem notifyLoop_matches_append (hd : DispatchSpec d nfs) :
    ∀ (cs : List Cand) (st : Store) (n : Nat),
      ∃ Δ, (notifyLoop d p cs st n).1.matches = st.matches ++ Δ ∧
        ∀ r ∈ Δ, ∃ c, c ∈ cs ∧ r = mkMatchRecord (p c).1 (p c).2 c.score c.md := by
  intro cs
  induction cs with
  | nil => intro st n; exact ⟨[], by simp [notifyLoop], by simp⟩
  | cons c cs ih =>
    intro st n
    rw [notifyLoop]
    split
    · obtain ⟨Δ, h1, h2⟩ := ih st n
      refine ⟨Δ, h1, fun r hr => ?_⟩
      obtain ⟨c', hc1, hc2⟩ := h2 r hr
      exact ⟨c', List.mem_cons_of_mem _ hc1, hc2⟩
    · obtain ⟨Δ, h1, h2⟩ := ih (d st (p c).1 (p c).2 c.score c.md) (n + 1)
      have hm := (hd st (p c).1 (p c).2 c.score c.md).2.1
      by_cases hu : (p c).1.uid = (p c).2.uid
      · rw [if_pos hu, List.append_nil] at hm
        refine ⟨Δ, by rw [h1, hm], fun r hr => ?_⟩
        obtain ⟨c', hc1, hc2⟩ := h2 r hr
        exact ⟨c', List.mem_cons_of_mem _ hc1, hc2⟩
      · rw [if_neg hu] at hm
        refine ⟨[mkMatchRecord (p c).1 (p c).2 c.score c.md] ++ Δ, ?_, ?_⟩
        · rw [h1, hm, List.append_assoc]
        · intro r hr
          rcases List.mem_append.1 hr with hr | hr
          · rw [List.mem_singleton] at hr
            exact ⟨c, List.mem_cons_self _ _, hr⟩
          · obtain ⟨c', hc1, hc2⟩ := h2 r hr
            exact ⟨c', List.mem_cons_of_mem _ hc1, hc2⟩

theorem recsFor_of_matches_eq {st st' : Store} (h : st'.matches = st.matches) (a b : Nat) :
    recsFor st' a b = recsFor st a b := by
  simp only [recsFor, h]

theorem notifsFor_of_notifications_eq {st st' : Store}
    (h : st'.notifications = st.notifications) (a b : Nat) :
    notifsFor st' a b = notifsFor st a b := by
  simp only [notifsFor, h]

theorem recsFor_append_rec {st st' : Store} {r : MatchRecord}
    (h : st'.matches = st.matches ++ [r]) (a b : Nat) :
    recsFor st' a b = recsFor st a b +
      (if r.lostItemId = a ∧ r.foundItemId = b then 1 else 0) := by
  simp only [recsFor, h, List.filter_append, List.length_append]
  congr 1
  by_cases hp : r.lostItemId = a ∧ r.foundItemId = b
  · rw [if_pos hp]
    simp [List.filter, hp.1, hp.2]
  · rw [if_neg hp]
    have : (r.lostItemId == a && r.foundItemId == b) = false := by
      rw [Bool.and_eq_false_iff]
      rcases Decidable.not_and_iff_or_not.1 hp with h1 | h1
      · exact Or.inl (beq_eq_false_iff_ne.2 h1)
      · exact Or.inr (beq_eq_false_iff_ne.2 h1)
    simp [List.filter, this]

theorem notifyLoop_freeze (hd : DispatchSpec d nfs) :
    ∀ (cs : List Cand) (st : Store) (n : Nat) (a b : Nat), 0 < recsFor st a b →
      recsFor (notifyLoop d p cs st n).1 a b = recsFor st a b := by
  intro cs
  induction cs with
  | nil => intro st n a b _; rfl
  | cons c cs ih =>
    intro st n a b hpos
    rw [notifyLoop]
    split
    · exact ih st n a b hpos
    · rename_i hme
      have hm := (hd st (p c).1 (p c).2 c.score c.md).2.1
      have hr' : recsFor (d st (p c).1 (p c).2 c.score c.md) a b = recsFor st a b := by
        by_cases hu : (p c).1.uid = (p c).2.uid
        · rw [if_pos hu, List.append_nil] at hm
          exact recsFor_of_matches_eq hm a b
        · rw [if_neg hu] at hm
          have hne : ¬((mkMatchRecord (p c).1 (p c).2 c.score c.md).lostItemId = a ∧
              (mkMatchRecord (p c).1 (p c).2 c.score c.md).foundItemId = b) := by
            rintro ⟨h1, h2⟩
            simp only [mkMatchRecord] at h1 h2
            subst h1
            subst h2
            exact hme ((matchExists_eq_true_iff st _ _).2 hpos)
          rw [recsFor_append_rec hm a b, if_neg hne]
          omega
      rw [ih _ (n + 1) a b (hr' ▸ hpos), hr']

theorem notifyLoop_reach (hd : DispatchSpec d nfs) :
    ∀ (cs : List Cand) (st : Store) (n : Nat) (c : Cand), c ∈ cs →
      (p c).1.uid ≠ (p c).2.uid →
      recsFor st (p c).1.id (p c).2.id = 0 →
      recsFor (notifyLoop d p cs st n).1 (p c).1.id (p c).2.id = 1 := by
  intro cs
  induction cs with
  | nil => intro st n c hc; cases hc
  | cons c' cs ih =>
    intro st n c hc huid h0
    rw [notifyLoop]
    rcases List.mem_cons.1 hc with rfl | hcs
    · split
      · rename_i hme
        have := (matchExists_eq_true_iff st (p c).1.id (p c).2.id).1 hme
        omega
      · have hm := (hd st (p c).1 (p c).2 c.score c.md).2.1
        rw [if_neg huid] at hm
        have hr1 : recsFor (d st (p c).1 (p c).2 c.score c.md) (p c).1.id (p c).2.id = 1 := by
          rw [recsFor_append_rec hm, if_pos ⟨rfl, rfl⟩, h0]
        rw [notifyLoop_freeze hd cs _ (n + 1) _ _ (by rw [hr1]; omega), hr1]
    · split
      · exact ih st n c hcs huid h0
      · have hm := (hd st (p c').1 (p c').2 c'.score c'.md).2.1
        by_cases hu' : (p c').1.uid = (p c').2.uid
        · rw [if_pos hu', List.append_nil] at hm
          exact ih _ (n + 1) c hcs huid (by rw [recsFor_of_matches_eq hm]; exact h0)
        · rw [if_neg hu'] at hm
          by_cases hpair : (p c').1.id = (p c).1.id ∧ (p c').2.id = (p c).2.id
          · have hr1 : recsFor (d st (p c').1 (p c').2 c'.score c'.md) (p c).1.id (p c).2.id = 1 := by
              rw [recsFor_append_rec hm, if_pos (by simp [mkMatchRecord, hpair.1, hpair.2]), h0]
            rw [notifyLoop_freeze hd cs _ (n + 1) _ _ (by rw [hr1]; omega), hr1]
          · have h0' : recsFor (d st (p c').1 (p c').2 c'.score c'.md) (p c).1.id (p c).2.id = 0 := by
              rw [recsFor_append_rec hm, if_neg (by simpa [mkMatchRecord] using hpair), h0]
            exact ih _ (n + 1) c hcs huid h0'

theorem batch_filter_all {l f : Item} {s : Int} {m : MatchDetails} {a b : Nat} {k : Nat}
    (hk : NotifSpec nfs k) (hp : l.id = a ∧ f.id = b) :
    ((nfs l f s m).filter fun n => n.lostItemId == a && n.foundItemId == b).length = k := by
  rw [List.filter_eq_self.2, (hk l f s m).1]
  intro n hn
  obtain ⟨h1, h2⟩ := (hk l f s m).2 n hn
  simp [h1, h2, hp.1, hp.2]

theorem batch_filter_none {l f : Item} {s : Int} {m : MatchDetails} {a b : Nat} {k : Nat}
    (hk : NotifSpec nfs k) (hp : ¬(l.id = a ∧ f.id = b)) :
    ((nfs l f s m).filter fun n => n.lostItemId == a && n.foundItemId == b).length = 0 := by
  rw [List.length_eq_zero, List.filter_eq_nil]
  intro n hn
  obtain ⟨h1, h2⟩ := (hk l f s m).2 n hn
  rw [h1, h2]
  rcases Decidable.not_and_iff_or_not.1 hp with h | h
  · simp [beq_eq_false_iff_ne.2 h]
  · simp [beq_eq_false_iff_ne.2 h]

theorem notifsFor_append_batch {st st' : Store} {l f : Item} {s : Int} {m : MatchDetails}
    {k : Nat} (hk : NotifSpec nfs k)
    (h : st'.notifications = st.notifications ++ nfs l f s m) (a b : Nat) :
    notifsFor st' a b = notifsFor st a b + (if l.id = a ∧ f.id = b then k else 0) := by
  simp only [notifsFor, h, List.filter_append, List.length_append]
  congr 1
  by_cases hp : l.id = a ∧ f.id = b
  · rw [if_pos hp, batch_filter_all hk hp]
  · rw [if_neg hp, batch_filter_none hk hp]

theorem notifyLoop_counts (hd : DispatchSpec d nfs) {k : Nat} (hk : NotifSpec nfs k) :
    ∀ (cs : List Cand) (st : Store) (n : Nat) (a b : Nat),
      ∃ j, recsFor (notifyLoop d p cs st n).1 a b = recsFor st a b + j ∧
        notifsFor (notifyLoop d p cs st n).1 a b = notifsFor st a b + k * j := by
  intro cs
  induction cs with
  | nil => intro st n a b; exact ⟨0, by simp [notifyLoop], by simp [notifyLoop]⟩
  | cons c cs ih =>
    intro st n a b
    rw [notifyLoop]
    split
    · exact ih st n a b
    · have hspec := hd st (p c).1 (p c).2 c.score c.md
      by_cases hu : (p c).1.uid = (p c).2.uid
      · rw [hspec.2.2.2 hu]
        exact ih st (n + 1) a b
      · have hm := hspec.2.1
        have hn := hspec.2.2.1
        rw [if_neg hu] at hm hn
        obtain ⟨j, hj1, hj2⟩ := ih (d st (p c).1 (p c).2 c.score c.md) (n + 1) a b
        by_cases hpair : (p c).1.id = a ∧ (p c).2.id = b
        · refine ⟨j + 1, ?_, ?_⟩
          · rw [hj1, recsFor_append_rec hm, if_pos (by simp [mkMatchRecord, hpair.1, hpair.2])]
            omega
          · rw [hj2, notifsFor_append_batch hk hn, if_pos hpair]
            ring
        · refine ⟨j, ?_, ?_⟩
          · rw [hj1, recsFor_append_rec hm, if_neg (by simpa [mkMatchRecord] using hpair)]
            omega
          · rw [hj2, notifsFor_append_batch hk hn, if_neg hpair]
            simp

theorem notifyLoop_noop (hd : DispatchSpec d nfs) :
    ∀ (cs : List Cand) (st : Store) (n : Nat),
      (∀ c ∈ cs, matchExists st (p c).1.id (p c).2.id = true ∨ (p c).1.uid = (p c).2.uid) →
      (notifyLoop d p cs st n).1 = st := by
  intro cs
  induction cs with
  | nil => intro st n _; rfl
  | cons c cs ih =>
    intro st n h
    rw [notifyLoop]
    split
    · exact ih st n fun c' hc' => h c' (List.mem_cons_of_mem _ hc')
    · rename_i hme
      rcases h c (List.mem_cons_self _ _) with hex | hu
      · exact absurd hex hme
      · rw [(hd st (p c).1 (p c).2 c.score c.md).2.2.2 hu]
        exact ih st (n + 1) fun c' hc' => h c' (List.mem_cons_of_mem _ hc')

theorem matchExists_mono (hd : DispatchSpec d nfs) (cs : List Cand) (st : Store) (n : Nat)
    {a b : Nat} (h : matchExists st a b = true) :
    matchExists (notifyLoop d p cs st n).1 a b = true := by
  obtain ⟨Δ, h1, _⟩ := notifyLoop_matches_append hd cs st n
  rw [matchExists, h1, List.any_append, matchExists] at *
  rw [h]
  rfl

theorem notifyLoop_establish (hd : DispatchSpec d nfs) :
    ∀ (cs : List Cand) (st : Store) (n : Nat) (c : Cand), c ∈ cs →
      matchExists (notifyLoop d p cs st n).1 (p c).1.id (p c).2.id = true ∨
        (p c).1.uid = (p c).2.uid := by
  intro cs
  induction cs with
  | nil => intro st n c hc; cases hc
  | cons c' cs ih =>
    intro st n c hc
    rw [notifyLoop]
    rcases List.mem_cons.1 hc with rfl | hcs
    · split
      · rename_i hme
        exact Or.inl (matchExists_mono hd cs st n hme)
      · by_cases hu : (p c).1.uid = (p c).2.uid
        · exact Or.inr hu
        · have hm := (hd st (p c).1 (p c).2 c.score c.md).2.1
          rw [if_neg hu] at hm
          refine Or.inl (matchExists_mono hd cs _ (n + 1) ?_)
          rw [matchExists, hm, List.any_append]
          have hb : (((mkMatchRecord (p c).1 (p c).2 c.score c.md).lostItemId == (p c).1.id) &&
              ((mkMatchRecord (p c).1 (p c).2 c.score c.md).foundItemId == (p c).2.id)) = true := by
            simp [mkMatchRecord]
          simp [hb]
    · split
      · exact ih st n c hcs
      · exact ih _ (n + 1) c hcs

theorem notifyLoop_total {d : Store → Item → Item → Int → MatchDetails → Store}
    {p : Cand → Item × Item} {nfs : Item → Item → Int → MatchDetails → List Notification}
    (hd : DispatchSpec d nfs) {k : Nat} (hk : NotifSpec nfs k) :
    ∀ (cs : List Cand) (st : Store) (n : Nat),
      ∃ j t, (notifyLoop d p cs st n).1.matches.length = st.matches.length + j ∧
        (notifyLoop d p cs st n).1.notifications.length = st.notifications.length + k * j ∧
        (notifyLoop d p cs st n).2 = n + t ∧ j ≤ t := by
  intro cs
  induction cs with
  | nil => intro st n; exact ⟨0, 0, by simp [notifyLoop], by simp [notifyLoop], by simp [notifyLoop], le_refl 0⟩
  | cons c cs ih =>
    intro st n
    rw [notifyLoop]
    split
    · exact ih st n
    · have hspec := hd st (p c).1 (p c).2 c.score c.md
      obtain ⟨j, t, hj1, hj2, hj3, hj4⟩ := ih (d st (p c).1 (p c).2 c.score c.md) (n + 1)
      by_cases hu : (p c).1.uid = (p c).2.uid
      · rw [hspec.2.2.2 hu] at hj1 hj2 hj3 ⊢
        exact ⟨j, t + 1, hj1, hj2, by omega, by omega⟩
      · have hm := hspec.2.1
        have hn := hspec.2.2.1
        rw [if_neg hu] at hm hn
        refine ⟨j + 1, t + 1, ?_, ?_, by omega, by omega⟩
        · rw [hj1, hm]
          simp
          omega
        · rw [hj2, hn, List.length_append, (hk (p c).1 (p c).2 c.score c.md).1]
          ring
end LoopLemmas

-- ==================== LEMMAS: ranked candidate lists ====================

theorem mem_insertDesc {x a : Cand} : ∀ {l : List Cand}, a ∈ insertDesc x l ↔ a = x ∨ a ∈ l := by
  intro l
  induction l with
  | nil => simp [insertDesc]
  | cons y ys ih =>
    rw [insertDesc]
    split
    · rw [List.mem_cons, ih, List.mem_cons]
      tauto
    · simp only [List.mem_cons]

theorem mem_sortDesc {a : Cand} : ∀ {l : List Cand}, a ∈ sortDesc l ↔ a ∈ l := by
  intro l
  induction l with
  | nil => simp [sortDesc]
  | cons y ys ih =>
    show a ∈ insertDesc y (sortDesc ys) ↔ _
    rw [mem_insertDesc, ih, List.mem_cons]

theorem sorted_insertDesc {x : Cand} :
    ∀ {l : List Cand}, l.Pairwise (fun a b => b.score ≤ a.score) →
      (insertDesc x l).Pairwise (fun a b => b.score ≤ a.score) := by
  intro l
  induction l with
  | nil => intro _; simp [insertDesc]
  | cons y ys ih =>
    intro h
    rw [List.pairwise_cons] at h
    rw [insertDesc]
    split
    · rename_i hlt
      rw [List.pairwise_cons]
      refine ⟨fun z hz => ?_, ih h.2⟩
      rcases mem_insertDesc.1 hz with rfl | hz
      · omega
      · exact h.1 z hz
    · rename_i hge
      rw [List.pairwise_cons]
      refine ⟨fun z hz => ?_, List.pairwise_cons.2 h⟩
      rcases List.mem_cons.1 hz with rfl | hz
      · omega
      · have := h.1 z hz
        omega

theorem sorted_sortDesc (l : List Cand) :
    (sortDesc l).Pairwise (fun a b => b.score ≤ a.score) := by
  induction l with
  | nil => simp [sortDesc]
  | cons y ys ih => exact sorted_insertDesc ih

theorem filter_insertDesc (s : Int) (x : Cand) :
    ∀ (l : List Cand), (insertDesc x l).filter (fun c => c.score == s) =
      ((x :: l).filter fun c => c.score == s) := by
  intro l
  induction l with
  | nil => rfl
  | cons y ys ih =>
    rw [insertDesc]
    split
    · rename_i hlt
      by_cases hy : y.score = s
      · have hx : (x.score == s) = false := by
          rw [beq_eq_false_iff_ne]
          omega
        have hyb : (y.score == s) = true := beq_iff_eq.2 hy
        rw [List.filter_cons, hyb, if_pos rfl, ih]
        simp [List.filter_cons, hx, hyb]
      · have hyb : (y.score == s) = false := beq_eq_false_iff_ne.2 hy
        rw [List.filter_cons, hyb, ih]
        simp [List.filter_cons, hyb]
    · rfl

theorem filter_sortDesc (s : Int) (l : List Cand) :
    (sortDesc l).filter (fun c => c.score == s) = l.filter (fun c => c.score == s) := by
  induction l with
  | nil => rfl
  | cons y ys ih =>
    show (insertDesc y (sortDesc ys)).filter _ = _
    rw [filter_insertDesc, List.filter_cons, List.filter_cons, ih]

theorem mem_candidatesBy {f : Item → ScoreResult} {pool : List Item} {now : Nat} {c : Cand}
    (hc : c ∈ candidatesBy f pool now) :
    c.item ∈ pool ∧ isExpired c.item.expiresAt now = false ∧ MATCH_THRESHOLD ≤ c.score := by
  unfold candidatesBy at hc
  obtain ⟨it, hit, heq⟩ := List.mem_filterMap.1 hc
  by_cases hexp : isExpired it.expiresAt now
  · rw [if_pos hexp] at heq
    cases heq
  · rw [if_neg hexp] at heq
    dsimp only at heq
    by_cases hth : MATCH_THRESHOLD ≤ (f it).score
    · rw [if_pos hth] at heq
      obtain rfl := Option.some.inj heq
      exact ⟨hit, by simpa using hexp, hth⟩
    · rw [if_neg hth] at heq
      cases heq

theorem keepExpiryD_eq_not_isExpired (e : Option Nat) (now : Nat) :
    keepExpiryD e now = !isExpired e now := by
  cases e with
  | none => rfl
  | some v =>
    by_cases h0 : v = 0
    · subst h0
      simp [keepExpiryD, isExpired]
    · by_cases hlt : v < now
      · simp [keepExpiryD, isExpired, h0, hlt, Nat.not_le.2 hlt]
      · simp [keepExpiryD, isExpired, h0, hlt, Nat.le_of_not_lt hlt]

-- ==================== LEMMAS: pipeline plumbing ====================

theorem store_eq {s t : Store} (h1 : s.items = t.items)
    (h2 : s.notifications = t.notifications) (h3 : s.matches = t.matches) : s = t := by
  cases s
  cases t
  simp_all

theorem openOfType_congr {s t : Store} (h : s.items = t.items) (ty : Str) :
    openOfType s ty = openOfType t ty := by
  simp only [openOfType, h]

theorem rankedD_congr {s t : Store} (h : s.items = t.items) (ni : Item) (now : Nat) :
    rankedD s ni now = rankedD t ni now := by
  unfold rankedD
  rw [openOfType_congr h]

theorem rankedLost_congr {s t : Store} (h : s.items = t.items) (ni : Item) (now : Nat)
    (ks : List Str) (nl : Str) :
    rankedLost s ni now ks nl = rankedLost t ni now ks nl := by
  unfold rankedLost
  rw [openOfType_congr h]

theorem rankedFound_congr {s t : Store} (h : s.items = t.items) (ni : Item) (now : Nat)
    (ks : List Str) (nl : Str) :
    rankedFound s ni now ks nl = rankedFound t ni now ks nl := by
  unfold rankedFound
  rw [openOfType_congr h]

theorem enrichItem_idem (i : Nat) (ks : List Str) (nl : Str) (it : Item) :
    (fun it => if it.id = i
      then { it with keywords := some ks, normalizedLocation := some nl,
                     matchProcessed := some true } else it)
      ((fun it => if it.id = i
        then { it with keywords := some ks, normalizedLocation := some nl,
                       matchProcessed := some true } else it) it)
    = (fun it => if it.id = i
        then { it with keywords := some ks, normalizedLocation := some nl,
                       matchProcessed := some true } else it) it := by
  by_cases h : it.id = i <;> simp [h]

theorem updateEnrichment_items_idem (st : Store) (i : Nat) (ks : List Str) (nl : Str) :
    (updateEnrichment (updateEnrichment st i ks nl) i ks nl).items =
      (updateEnrichment st i ks nl).items := by
  simp only [updateEnrichment, List.map_map]
  apply List.map_congr_left
  intro it _
  exact enrichItem_idem i ks nl it

theorem findMatches_items (st : Store) (ni : Item) (now : Nat) :
    (findMatches st ni now).1.items = st.items :=
  notifyLoop_items createMatchNotificationD_spec _ st 0

/-- Running the dashboard pipeline a second time changes nothing: every
candidate either has its match record from the first run (dedup skips it)
or is a same-owner pair (the dispatcher's guard fires). -/
theorem findMatches_idem (st : Store) (ni : Item) (now : Nat) :
    (findMatches (findMatches st ni now).1 ni now).1 = (findMatches st ni now).1 := by
  have hit := findMatches_items st ni now
  have hR : rankedD (findMatches st ni now).1 ni now = rankedD st ni now :=
    rankedD_congr hit ni now
  show (notifyLoop createMatchNotificationD (pairD ni)
      (rankedD (findMatches st ni now).1 ni now) (findMatches st ni now).1 0).1 =
    (findMatches st ni now).1
  rw [hR]
  exact notifyLoop_noop createMatchNotificationD_spec _ _ 0
    fun c hc => notifyLoop_establish createMatchNotificationD_spec _ st 0 c hc

theorem onLost_guard_neg {st : Store} {ni : Item} (ht : ¬ni.type = str "lost") (now : Nat) :
    onLostItemCreated st ni now = (st, 0) := by
  rw [onLostItemCreated, if_pos ht]

theorem onLost_guard_pos {st : Store} {ni : Item} (ht : ni.type = str "lost") (now : Nat) :
    onLostItemCreated st ni now =
      notifyLoop createNotification (pairLost ni) (lostTriggerRanked st ni now)
        (updateEnrichment st ni.id
          (extractKeywords (ni.title ++ str " " ++ ni.description))
          (normalizeLocation ni.location)) 0 := by
  rw [onLostItemCreated, if_neg (by simp [ht])]
  rfl

/-- Running the lost-item trigger a second time changes nothing: the
enrichment rewrite is idempotent and the notify loop skips or no-ops on
every candidate. -/
theorem onLost_idem (st : Store) (ni : Item) (now : Nat) :
    (onLostItemCreated (onLostItemCreated st ni now).1 ni now).1 =
      (onLostItemCreated st ni now).1 := by
  by_cases ht : ni.type = str "lost"
  · rw [onLost_guard_pos ht now, onLost_guard_pos ht now]
    set ks := extractKeywords (ni.title ++ str " " ++ ni.description) with hks
    set nl := normalizeLocation ni.location with hnl
    set st1 := updateEnrichment st ni.id ks nl with hst1
    set r1 := (notifyLoop createNotification (pairLost ni) (lostTriggerRanked st ni now) st1 0).1
      with hr1
    have hitems : r1.items = st1.items := notifyLoop_items createNotification_spec _ st1 0
    have hup : updateEnrichment r1 ni.id ks nl = r1 := by
      apply store_eq
      · show (updateEnrichment r1 ni.id ks nl).items = r1.items
        have : (updateEnrichment r1 ni.id ks nl).items =
            (updateEnrichment st1 ni.id ks nl).items := by
          simp only [updateEnrichment, hitems]
        rw [this, hst1, updateEnrichment_items_idem, ← hst1, ← hitems]
      · rfl
      · rfl
    have hRanked : lostTriggerRanked r1 ni now = lostTriggerRanked st ni now := by
      unfold lostTriggerRanked
      apply rankedLost_congr
      show (updateEnrichment r1 ni.id ks nl).items = (updateEnrichment st ni.id ks nl).items
      rw [hup, hitems, hst1]
    rw [hup, hRanked]
    exact notifyLoop_noop createNotification_spec _ r1 0
      fun c hc => notifyLoop_establish createNotification_spec _ st1 0 c hc
  · rw [onLost_guard_neg ht now, onLost_guard_neg ht now]

-- ==================== LEMMAS: concrete score evaluations ====================

theorem score70_of_parts {i1 i2 : Item} {L : Str}
    (hcat : i1.category ≠ [] ∧ i2.category ≠ [] ∧ i1.category = i2.category)
    (hloc1 : itemNormLoc i1 = L) (hloc2 : itemNormLoc i2 = L) (hL : L ≠ [])
    (hkw1 : itemKeywords i1 = []) (hkw2 : itemKeywords i2 = []) :
    calculateMatchScore i1 i2 = ⟨70, ⟨true, true, 0, []⟩⟩ := by
  unfold calculateMatchScore
  dsimp only
  rw [hloc1, hloc2, hkw1, hkw2, if_pos hcat, locationContribution_self hL]
  have hk0 : keywordContribution [] [] = (0, 0, []) := by simp [keywordContribution, dedupFirst]
  rw [hk0]
  congr 1
  · norm_num [jsRound, WEIGHTS_category, WEIGHTS_location]
  · rw [decide_eq_true hcat]

theorem scoreD70_of_parts {i1 i2 : Item} {L : Str}
    (hcat : i1.category ≠ [] ∧ i1.category = i2.category)
    (hloc1 : normalizeLocationD i1.location = L) (hloc2 : normalizeLocationD i2.location = L)
    (hL : L ≠ [])
    (hkw1 : extractKeywords (i1.title ++ str " " ++ i1.description) = [])
    (hkw2 : extractKeywords (i2.title ++ str " " ++ i2.description) = []) :
    calculateMatchScoreD i1 i2 = ⟨70, ⟨true, true, 0, []⟩⟩ := by
  unfold calculateMatchScoreD
  dsimp only
  rw [hloc1, hloc2, hkw1, hkw2, if_pos hcat, locationContribution_self hL]
  have hk0 : keywordContributionD [] [] = (0, 0, []) := by simp [keywordContributionD, dedupFirst]
  rw [hk0]
  congr 1
  · norm_num [jsRound, WEIGHTS_category, WEIGHTS_location]
  · rw [decide_eq_true hcat]

theorem gate_scoreD :
    calculateMatchScoreD gateLostItem gateFoundItem = ⟨70, ⟨true, true, 0, []⟩⟩ :=
  scoreD70_of_parts (L := str "gate") (by decide) rfl rfl (by decide) rfl rfl

theorem gate_score_server :
    calculateMatchScore
      { gateLostItem with
          keywords := some (extractKeywords (gateLostItem.title ++ str " " ++ gateLostItem.description)),
          normalizedLocation := some (normalizeLocation gateLostItem.location) }
      gateFoundItem = ⟨70, ⟨true, true, 0, []⟩⟩ :=
  score70_of_parts (L := str "gate") (by decide) (by decide) (by decide) (by decide)
    (by decide) (by decide)

theorem gate_score_server_exp0 :
    calculateMatchScore
      { gateLostItem with
          keywords := some (extractKeywords (gateLostItem.title ++ str " " ++ gateLostItem.description)),
          normalizedLocation := some (normalizeLocation gateLostItem.location) }
      gateFoundItemExpired0 = ⟨70, ⟨true, true, 0, []⟩⟩ :=
  score70_of_parts (L := str "gate") (by decide) (by decide) (by decide) (by decide)
    (by decide) (by decide)

theorem gate_rankedD :
    rankedD gateStore gateLostItem 0 = [⟨gateFoundItem, 70, ⟨true, true, 0, []⟩⟩] := by
  unfold rankedD
  have hpool : openOfType gateStore
      (if gateLostItem.type = str "lost" then str "found" else str "lost") = [gateFoundItem] := by
    decide
  rw [hpool]
  simp only [List.map_cons, List.map_nil]
  rw [gate_scoreD]
  decide

theorem gate_run_eval :
    findMatches gateStore gateLostItem 0 =
      (⟨[gateFoundItem],
        [clientLostNotification gateLostItem gateFoundItem 70 ⟨true, true, 0, []⟩,
         clientFoundNotification gateLostItem gateFoundItem 70 ⟨true, true, 0, []⟩],
        [mkMatchRecord gateLostItem gateFoundItem 70 ⟨true, true, 0, []⟩]⟩, 1) := by
  show (notifyLoop createMatchNotificationD (pairD gateLostItem)
      (rankedD gateStore gateLostItem 0) gateStore 0) = _
  rw [gate_rankedD]
  decide

theorem gate_lostRanked :
    lostTriggerRanked gateStore gateLostItem 0 = [⟨gateFoundItem, 70, ⟨true, true, 0, []⟩⟩] := by
  unfold lostTriggerRanked rankedLost
  have hpool : openOfType
      (updateEnrichment gateStore gateLostItem.id
        (extractKeywords (gateLostItem.title ++ str " " ++ gateLostItem.description))
        (normalizeLocation gateLostItem.location)) (str "found") = [gateFoundItem] := by
    decide
  rw [hpool]
  unfold candidatesBy
  simp only [List.filterMap_cons, List.filterMap_nil]
  rw [gate_score_server]
  decide

-- ==================== C1 ====================

/-- C1 (amended): on a same-owner pair neither dispatcher writes anything;
on a distinct-owner pair both write exactly one MatchRecord, the client
dispatcher (`dashboard.js`) appends exactly two notifications — one to the
lost-item owner, one to the found-item owner — while the server dispatcher
(`functions/index.js`) appends exactly one, addressed to the lost-item
owner only. -/
theorem C1_dispatcher_writes (st : Store) (L F : Item) (s : Int) (m : MatchDetails) :
    (L.uid = F.uid →
      createNotification st L F s m = st ∧ createMatchNotificationD st L F s m = st) ∧
    (L.uid ≠ F.uid →
      ((createNotification st L F s m).notifications.map Notification.userId =
          st.notifications.map Notification.userId ++ [L.uid] ∧
        (createNotification st L F s m).matches = st.matches ++ [mkMatchRecord L F s m]) ∧
      ((createMatchNotificationD st L F s m).notifications.map Notification.userId =
          st.notifications.map Notification.userId ++ [L.uid, F.uid] ∧
        (createMatchNotificationD st L F s m).matches = st.matches ++ [mkMatchRecord L F s m])) := by
  constructor
  · intro h
    exact ⟨(createNotification_spec st L F s m).2.2.2 h,
      (createMatchNotificationD_spec st L F s m).2.2.2 h⟩
  · intro h
    refine ⟨⟨?_, ?_⟩, ?_, ?_⟩
    · rw [(createNotification_spec st L F s m).2.2.1, if_neg h]
      simp [serverBatch, serverNotification]
    · rw [(createNotification_spec st L F s m).2.1, if_neg h]
    · rw [(createMatchNotificationD_spec st L F s m).2.2.1, if_neg h]
      simp [clientBatch, clientLostNotification, clientFoundNotification]
    · rw [(createMatchNotificationD_spec st L F s m).2.1, if_neg h]

/-- C1 witness: the distinct-owner case at concrete items. -/
theorem C1_dispatcher_writes_witness :
    ((createNotification emptyStore gateLostItem gateFoundItem 70 mdSample).notifications.map
        Notification.userId =
      emptyStore.notifications.map Notification.userId ++ [gateLostItem.uid] ∧
     (createNotification emptyStore gateLostItem gateFoundItem 70 mdSample).matches =
      emptyStore.matches ++ [mkMatchRecord gateLostItem gateFoundItem 70 mdSample]) ∧
    ((createMatchNotificationD emptyStore gateLostItem gateFoundItem 70 mdSample).notifications.map
        Notification.userId =
      emptyStore.notifications.map Notification.userId ++ [gateLostItem.uid, gateFoundItem.uid] ∧
     (createMatchNotificationD emptyStore gateLostItem gateFoundItem 70 mdSample).matches =
      emptyStore.matches ++ [mkMatchRecord gateLostItem gateFoundItem 70 mdSample]) :=
  (C1_dispatcher_writes emptyStore gateLostItem gateFoundItem 70 mdSample).2 (by decide)

/-- C1 counterexample: the server dispatcher creates one notification for
a distinct-owner pair, not the two the claim demands. -/
theorem C1_server_one_notification_counterexample :
    gateLostItem.uid ≠ gateFoundItem.uid ∧
    (createNotification emptyStore gateLostItem gateFoundItem 70 mdSample).notifications.length = 1 ∧
    (createNotification emptyStore gateLostItem gateFoundItem 70 mdSample).notifications.length ≠ 2 ∧
    (createNotification emptyStore gateLostItem gateFoundItem 70 mdSample).matches.length = 1 := by
  refine ⟨by decide, ?_, ?_, ?_⟩ <;> decide

-- ==================== C2 ====================

theorem findMatches_pair_counts (st : Store) (ni : Item) (now : Nat) (c : Cand)
    (hc : c ∈ rankedD st ni now)
    (hu : (pairD ni c).1.uid ≠ (pairD ni c).2.uid)
    (h0 : recsFor st (pairD ni c).1.id (pairD ni c).2.id = 0)
    (hn0 : notifsFor st (pairD ni c).1.id (pairD ni c).2.id = 0) :
    recsFor (findMatches st ni now).1 (pairD ni c).1.id (pairD ni c).2.id = 1 ∧
      notifsFor (findMatches st ni now).1 (pairD ni c).1.id (pairD ni c).2.id = 2 := by
  show recsFor (notifyLoop createMatchNotificationD (pairD ni) (rankedD st ni now) st 0).1 _ _ = 1 ∧
    notifsFor (notifyLoop createMatchNotificationD (pairD ni) (rankedD st ni now) st 0).1 _ _ = 2
  have hreach := notifyLoop_reach createMatchNotificationD_spec (rankedD st ni now) st 0 c hc hu h0
  obtain ⟨j, hj1, hj2⟩ := notifyLoop_counts createMatchNotificationD_spec clientBatch_spec
    (rankedD st ni now) st 0 (pairD ni c).1.id (pairD ni c).2.id
  refine ⟨hreach, ?_⟩
  rw [h0] at hj1
  rw [hreach] at hj1
  rw [hj2, hn0]
  omega

theorem onLost_pair_counts (st : Store) (ni : Item) (now : Nat) (ht : ni.type = str "lost")
    (c : Cand) (hc : c ∈ lostTriggerRanked st ni now)
    (hu : ni.uid ≠ c.item.uid)
    (h0 : recsFor st ni.id c.item.id = 0)
    (hn0 : notifsFor st ni.id c.item.id = 0) :
    recsFor (onLostItemCreated st ni now).1 ni.id c.item.id = 1 ∧
      notifsFor (onLostItemCreated st ni now).1 ni.id c.item.id = 1 := by
  rw [onLost_guard_pos ht now]
  have hreach := notifyLoop_reach (p := pairLost ni) createNotification_spec
    (lostTriggerRanked st ni now)
    (updateEnrichment st ni.id
      (extractKeywords (ni.title ++ str " " ++ ni.description))
      (normalizeLocation ni.location)) 0 c hc hu h0
  obtain ⟨j, hj1, hj2⟩ := notifyLoop_counts createNotification_spec serverBatch_spec
    (lostTriggerRanked st ni now)
    (updateEnrichment st ni.id
      (extractKeywords (ni.title ++ str " " ++ ni.description))
      (normalizeLocation ni.location)) 0 (pairLost ni c).1.id (pairLost ni c).2.id
  refine ⟨hreach, ?_⟩
  have h0' : recsFor
      (updateEnrichment st ni.id
        (extractKeywords (ni.title ++ str " " ++ ni.description))
        (normalizeLocation ni.location)) (pairLost ni c).1.id (pairLost ni c).2.id = 0 := h0
  rw [h0'] at hj1
  rw [hreach] at hj1
  have hn0' : notifsFor
      (updateEnrichment st ni.id
        (extractKeywords (ni.title ++ str " " ++ ni.description))
        (normalizeLocation ni.location)) (pairLost ni c).1.id (pairLost ni c).2.id = 0 := hn0
  show notifsFor _ (pairLost ni c).1.id (pairLost ni c).2.id = 1
  rw [hj2, hn0']
  omega

/-- C2 (amended): running a pipeline twice in sequence for the same item
leaves the first run's store unchanged — the second run's Dedup Guard
finds the MatchRecord written by the first run (or the dispatcher's
same-owner guard fires again) — and each qualifying novel distinct-owner
pair ends with exactly one MatchRecord, with exactly two Notifications
through the client pipeline but exactly one Notification (to the lost-item
owner) through the server trigger. -/
theorem C2_double_run_dedup (st : Store) (ni : Item) (now : Nat) :
    ((findMatches (findMatches st ni now).1 ni now).1 = (findMatches st ni now).1) ∧
    (∀ c ∈ rankedD st ni now,
      (pairD ni c).1.uid ≠ (pairD ni c).2.uid →
      recsFor st (pairD ni c).1.id (pairD ni c).2.id = 0 →
      notifsFor st (pairD ni c).1.id (pairD ni c).2.id = 0 →
      recsFor (findMatches (findMatches st ni now).1 ni now).1
          (pairD ni c).1.id (pairD ni c).2.id = 1 ∧
        notifsFor (findMatches (findMatches st ni now).1 ni now).1
          (pairD ni c).1.id (pairD ni c).2.id = 2) ∧
    ((onLostItemCreated (onLostItemCreated st ni now).1 ni now).1 =
      (onLostItemCreated st ni now).1) ∧
    (ni.type = str "lost" →
      ∀ c ∈ lostTriggerRanked st ni now,
        ni.uid ≠ c.item.uid →
        recsFor st ni.id c.item.id = 0 →
        notifsFor st ni.id c.item.id = 0 →
        recsFor (onLostItemCreated (onLostItemCreated st ni now).1 ni now).1
            ni.id c.item.id = 1 ∧
          notifsFor (onLostItemCreated (onLostItemCreated st ni now).1 ni now).1
            ni.id c.item.id = 1) := by
  refine ⟨findMatches_idem st ni now, ?_, onLost_idem st ni now, ?_⟩
  · intro c hc hu h0 hn0
    rw [findMatches_idem st ni now]
    exact findMatches_pair_counts st ni now c hc hu h0 hn0
  · intro ht c hc hu h0 hn0
    rw [onLost_idem st ni now]
    exact onLost_pair_counts st ni now ht c hc hu h0 hn0

/-- C2 witness: the client pipeline run twice over a one-candidate store. -/
theorem C2_double_run_dedup_witness :
    recsFor (findMatches (findMatches gateStore gateLostItem 0).1 gateLostItem 0).1
        (pairD gateLostItem ⟨gateFoundItem, 70, ⟨true, true, 0, []⟩⟩).1.id
        (pairD gateLostItem ⟨gateFoundItem, 70, ⟨true, true, 0, []⟩⟩).2.id = 1 ∧
      notifsFor (findMatches (findMatches gateStore gateLostItem 0).1 gateLostItem 0).1
        (pairD gateLostItem ⟨gateFoundItem, 70, ⟨true, true, 0, []⟩⟩).1.id
        (pairD gateLostItem ⟨gateFoundItem, 70, ⟨true, true, 0, []⟩⟩).2.id = 2 :=
  (C2_double_run_dedup gateStore gateLostItem 0).2.1 ⟨gateFoundItem, 70, ⟨true, true, 0, []⟩⟩
    (by rw [gate_rankedD]; exact List.mem_singleton.2 rfl) (by decide) (by decide) (by decide)

/-- C2 counterexample: through the server trigger a doubly-processed
qualifying pair ends with one notification, not the two the claim
demands. -/
theorem C2_server_single_notification_counterexample :
    recsFor (onLostItemCreated (onLostItemCreated gateStore gateLostItem 0).1 gateLostItem 0).1
        gateLostItem.id gateFoundItem.id = 1 ∧
      notifsFor (onLostItemCreated (onLostItemCreated gateStore gateLostItem 0).1 gateLostItem 0).1
        gateLostItem.id gateFoundItem.id = 1 ∧
      (1 : Nat) ≠ 2 := by
  have h := onLost_pair_counts gateStore gateLostItem 0 rfl ⟨gateFoundItem, 70, ⟨true, true, 0, []⟩⟩
    (by rw [gate_lostRanked]; exact List.mem_singleton.2 rfl) (by decide) (by decide) (by decide)
  rw [onLost_idem]
  exact ⟨h.1, h.2, by decide⟩

-- ==================== C4 ====================

/-- C4 (amended): the count returned by the client pipeline counts the
pairs handed past the Dedup Guard, not the notifications persisted: the
store gains some `j` MatchRecords and exactly `2 * j` Notifications, with
`j` at most the returned count (a dispatched same-owner pair is counted
but persists nothing). -/
theorem C4_returned_count_vs_persisted (st : Store) (ni : Item) (now : Nat) :
    ∃ j, (findMatches st ni now).1.matches.length = st.matches.length + j ∧
      (findMatches st ni now).1.notifications.length = st.notifications.length + 2 * j ∧
      j ≤ (findMatches st ni now).2 := by
  obtain ⟨j, t, h1, h2, h3, h4⟩ := notifyLoop_total createMatchNotificationD_spec clientBatch_spec
    (rankedD st ni now) st 0
  refine ⟨j, h1, h2, ?_⟩
  show j ≤ (notifyLoop createMatchNotificationD (pairD ni) (rankedD st ni now) st 0).2
  omega

/-- C4 counterexample: a run that dispatches one distinct-owner pair
returns 1 but persists 2 notifications. -/
theorem C4_count_mismatch_counterexample :
    (findMatches gateStore gateLostItem 0).2 = 1 ∧
      gateStore.notifications.length = 0 ∧
      (findMatches gateStore gateLostItem 0).1.notifications.length = 2 ∧
      (findMatches gateStore gateLostItem 0).2 ≠
        (findMatches gateStore gateLostItem 0).1.notifications.length := by
  rw [gate_run_eval]
  exact ⟨rfl, rfl, rfl, by decide⟩

-- ==================== C9 ====================

theorem onFound_guard_neg {st : Store} {ni : Item} (ht : ¬ni.type = str "found") (now : Nat) :
    onFoundItemCreated st ni now = (st, 0) := by
  rw [onFoundItemCreated, if_pos ht]

theorem onFound_guard_pos {st : Store} {ni : Item} (ht : ni.type = str "found") (now : Nat) :
    onFoundItemCreated st ni now =
      notifyLoop createNotification (pairFound ni) (foundTriggerRanked st ni now)
        (updateEnrichment st ni.id
          (extractKeywords (ni.title ++ str " " ++ ni.description))
          (normalizeLocation ni.location)) 0 := by
  rw [onFoundItemCreated, if_neg (by simp [ht])]
  rfl

theorem mem_rankedLost {st : Store} {ni : Item} {now : Nat} {ks : List Str} {nl : Str} {c : Cand}
    (hc : c ∈ rankedLost st ni now ks nl) :
    c.item ∈ openOfType st (str "found") ∧ isExpired c.item.expiresAt now = false ∧
      MATCH_THRESHOLD ≤ c.score := by
  unfold rankedLost at hc
  exact mem_candidatesBy (mem_sortDesc.1 (List.mem_of_mem_take hc))

theorem mem_rankedFound {st : Store} {ni : Item} {now : Nat} {ks : List Str} {nl : Str} {c : Cand}
    (hc : c ∈ rankedFound st ni now ks nl) :
    c.item ∈ openOfType st (str "lost") ∧ isExpired c.item.expiresAt now = false ∧
      MATCH_THRESHOLD ≤ c.score := by
  unfold rankedFound at hc
  exact mem_candidatesBy (mem_sortDesc.1 (List.mem_of_mem_take hc))

theorem mem_rankedD {st : Store} {ni : Item} {now : Nat} {c : Cand}
    (hc : c ∈ rankedD st ni now) :
    c.item ∈ openOfType st (if ni.type = str "lost" then str "found" else str "lost") ∧
      keepExpiryD c.item.expiresAt now = true ∧ MATCH_THRESHOLD ≤ c.score := by
  unfold rankedD at hc
  have hmem := mem_sortDesc.1 (List.mem_of_mem_take hc)
  have hfil := List.mem_filter.1 hmem
  obtain ⟨d, hd, heq⟩ := List.mem_map.1 hfil.1
  have hcond := hfil.2
  rw [Bool.and_eq_true, decide_eq_true_eq] at hcond
  subst heq
  exact ⟨hd, hcond.2, hcond.1⟩

theorem enrich_preserves_id (i : Nat) (ks : List Str) (nl : Str) (it : Item) :
    ((fun it => if it.id = i
        then { it with keywords := some ks, normalizedLocation := some nl,
                       matchProcessed := some true } else it) it).id
      = it.id := by
  by_cases h : it.id = i <;> simp [h]

theorem filter_map_open_ids {f : Item → Item} (hid : ∀ it, (f it).id = it.id)
    (htp : ∀ it, (f it).type = it.type) (hst : ∀ it, (f it).status = it.status)
    (ty : Str) :
    ∀ l : List Item,
      ((l.map f).filter (fun it => it.type == ty && it.status == str "open")).map Item.id =
        (l.filter (fun it => it.type == ty && it.status == str "open")).map Item.id := by
  intro l
  induction l with
  | nil => rfl
  | cons it its ih =>
    rw [List.map_cons, List.filter_cons, List.filter_cons]
    have heq : ((f it).type == ty && (f it).status == str "open") =
        (it.type == ty && it.status == str "open") := by
      rw [htp, hst]
    rw [heq]
    by_cases hpred : (it.type == ty && it.status == str "open") = true
    · rw [if_pos hpred, if_pos hpred, List.map_cons, List.map_cons, hid, ih]
    · rw [if_neg hpred, if_neg hpred, ih]

theorem openOfType_update_ids (st : Store) (i : Nat) (ks : List Str) (nl : Str) (ty : Str) :
    (openOfType (updateEnrichment st i ks nl) ty).map Item.id =
      (openOfType st ty).map Item.id := by
  unfold openOfType updateEnrichment
  dsimp only
  exact filter_map_open_ids
    (fun it => by by_cases h : it.id = i <;> simp [h])
    (fun it => by by_cases h : it.id = i <;> simp [h])
    (fun it => by by_cases h : it.id = i <;> simp [h])
    ty st.items

theorem onLost_records (st : Store) (L : Item) (now : Nat) :
    ∃ Δ, (onLostItemCreated st L now).1.matches = st.matches ++ Δ ∧
      ∀ r ∈ Δ, r.lostItemId = L.id ∧
        r.foundItemId ∈ (openOfType st (str "found")).map Item.id := by
  by_cases ht : L.type = str "lost"
  · rw [onLost_guard_pos ht now]
    obtain ⟨Δ, h1, h2⟩ := notifyLoop_matches_append createNotification_spec
      (lostTriggerRanked st L now)
      (updateEnrichment st L.id
        (extractKeywords (L.title ++ str " " ++ L.description))
        (normalizeLocation L.location)) 0
    refine ⟨Δ, h1, fun r hr => ?_⟩
    obtain ⟨c, hc, rfl⟩ := h2 r hr
    refine ⟨rfl, ?_⟩
    have hm := (mem_rankedLost hc).1
    have : c.item.id ∈ (openOfType
        (updateEnrichment st L.id
          (extractKeywords (L.title ++ str " " ++ L.description))
          (normalizeLocation L.location)) (str "found")).map Item.id :=
      List.mem_map_of_mem Item.id hm
    rwa [openOfType_update_ids] at this
  · rw [onLost_guard_neg ht now]
    exact ⟨[], by simp, by simp⟩

theorem onFound_records (st : Store) (F : Item) (now : Nat) :
    ∃ Δ, (onFoundItemCreated st F now).1.matches = st.matches ++ Δ ∧
      ∀ r ∈ Δ, r.foundItemId = F.id ∧
        r.lostItemId ∈ (openOfType st (str "lost")).map Item.id := by
  by_cases ht : F.type = str "found"
  · rw [onFound_guard_pos ht now]
    obtain ⟨Δ, h1, h2⟩ := notifyLoop_matches_append createNotification_spec
      (foundTriggerRanked st F now)
      (updateEnrichment st F.id
        (extractKeywords (F.title ++ str " " ++ F.description))
        (normalizeLocation F.location)) 0
    refine ⟨Δ, h1, fun r hr => ?_⟩
    obtain ⟨c, hc, rfl⟩ := h2 r hr
    refine ⟨rfl, ?_⟩
    have hm := (mem_rankedFound hc).1
    have : c.item.id ∈ (openOfType
        (updateEnrichment st F.id
          (extractKeywords (F.title ++ str " " ++ F.description))
          (normalizeLocation F.location)) (str "lost")).map Item.id :=
      List.mem_map_of_mem Item.id hm
    rwa [openOfType_update_ids] at this
  · rw [onFound_guard_neg ht now]
    exact ⟨[], by simp, by simp⟩

theorem findMatches_records_lost (st : Store) (ni : Item) (now : Nat)
    (ht : ni.type = str "lost") :
    ∃ Δ, (findMatches st ni now).1.matches = st.matches ++ Δ ∧
      ∀ r ∈ Δ, r.lostItemId = ni.id ∧
        r.foundItemId ∈ (openOfType st (str "found")).map Item.id := by
  obtain ⟨Δ, h1, h2⟩ := notifyLoop_matches_append createMatchNotificationD_spec
    (rankedD st ni now) st 0
  refine ⟨Δ, h1, fun r hr => ?_⟩
  obtain ⟨c, hc, rfl⟩ := h2 r hr
  have hp : pairD ni c = (ni, c.item) := by rw [pairD, if_pos ht]
  have hm := (mem_rankedD hc).1
  rw [if_pos ht] at hm
  rw [hp]
  exact ⟨rfl, List.mem_map_of_mem Item.id hm⟩

theorem findMatches_records_found (st : Store) (ni : Item) (now : Nat)
    (ht : ni.type = str "found") :
    ∃ Δ, (findMatches st ni now).1.matches = st.matches ++ Δ ∧
      ∀ r ∈ Δ, r.foundItemId = ni.id ∧
        r.lostItemId ∈ (openOfType st (str "lost")).map Item.id := by
  have htl : ¬ni.type = str "lost" := by rw [ht]; decide
  obtain ⟨Δ, h1, h2⟩ := notifyLoop_matches_append createMatchNotificationD_spec
    (rankedD st ni now) st 0
  refine ⟨Δ, h1, fun r hr => ?_⟩
  obtain ⟨c, hc, rfl⟩ := h2 r hr
  have hp : pairD ni c = (c.item, ni) := by rw [pairD, if_neg htl]
  have hm := (mem_rankedD hc).1
  rw [if_neg htl] at hm
  rw [hp]
  exact ⟨rfl, List.mem_map_of_mem Item.id hm⟩

theorem onLost_freeze (st : Store) (L : Item) (now : Nat) (a b : Nat)
    (h : 0 < recsFor st a b) :
    recsFor (onLostItemCreated st L now).1 a b = recsFor st a b := by
  by_cases ht : L.type = str "lost"
  · rw [onLost_guard_pos ht now]
    exact notifyLoop_freeze createNotification_spec _ _ 0 a b h
  · rw [onLost_guard_neg ht now]

theorem onFound_freeze (st : Store) (F : Item) (now : Nat) (a b : Nat)
    (h : 0 < recsFor st a b) :
    recsFor (onFoundItemCreated st F now).1 a b = recsFor st a b := by
  by_cases ht : F.type = str "found"
  · rw [onFound_guard_pos ht now]
    exact notifyLoop_freeze createNotification_spec _ _ 0 a b h
  · rw [onFound_guard_neg ht now]

theorem findMatches_freeze (st : Store) (ni : Item) (now : Nat) (a b : Nat)
    (h : 0 < recsFor st a b) :
    recsFor (findMatches st ni now).1 a b = recsFor st a b :=
  notifyLoop_freeze createMatchNotificationD_spec _ _ 0 a b h

/-- C9: every MatchRecord written by either server trigger or by the
dashboard pipeline puts the lost-role item's id in `lostItemId` and the
found-role item's id in `foundItemId` (the new lost item against the found
pool, or the pool's lost item against the new found item), and any pair
already recorded — by whichever trigger — is left untouched by every entry
point, so one trigger's record is found by the other's dedup check. -/
theorem C9_match_record_orientation (st : Store) (L F ni : Item) (now : Nat) (a b : Nat) :
    (∃ Δ, (onLostItemCreated st L now).1.matches = st.matches ++ Δ ∧
      ∀ r ∈ Δ, r.lostItemId = L.id ∧
        r.foundItemId ∈ (openOfType st (str "found")).map Item.id) ∧
    (∃ Δ, (onFoundItemCreated st F now).1.matches = st.matches ++ Δ ∧
      ∀ r ∈ Δ, r.foundItemId = F.id ∧
        r.lostItemId ∈ (openOfType st (str "lost")).map Item.id) ∧
    (ni.type = str "lost" →
      ∃ Δ, (findMatches st ni now).1.matches = st.matches ++ Δ ∧
        ∀ r ∈ Δ, r.lostItemId = ni.id ∧
          r.foundItemId ∈ (openOfType st (str "found")).map Item.id) ∧
    (ni.type = str "found" →
      ∃ Δ, (findMatches st ni now).1.matches = st.matches ++ Δ ∧
        ∀ r ∈ Δ, r.foundItemId = ni.id ∧
          r.lostItemId ∈ (openOfType st (str "lost")).map Item.id) ∧
    (0 < recsFor st a b →
      recsFor (onLostItemCreated st L now).1 a b = recsFor st a b ∧
      recsFor (onFoundItemCreated st F now).1 a b = recsFor st a b ∧
      recsFor (findMatches st ni now).1 a b = recsFor st a b) :=
  ⟨onLost_records st L now, onFound_records st F now,
    findMatches_records_lost st ni now, findMatches_records_found st ni now,
    fun h => ⟨onLost_freeze st L now a b h, onFound_freeze st F now a b h,
      findMatches_freeze st ni now a b h⟩⟩

/-- C9 witness: the orientation facts instantiated over a store already
holding the gate pair's record. -/
theorem C9_match_record_orientation_witness :
    (∃ Δ, (findMatches recStore gateLostItem 0).1.matches = recStore.matches ++ Δ ∧
      ∀ r ∈ Δ, r.lostItemId = gateLostItem.id ∧
        r.foundItemId ∈ (openOfType recStore (str "found")).map Item.id) ∧
    (recsFor (onLostItemCreated recStore gateLostItem 0).1 gateLostItem.id gateFoundItem.id =
        recsFor recStore gateLostItem.id gateFoundItem.id ∧
      recsFor (onFoundItemCreated recStore gateFoundItem 0).1 gateLostItem.id gateFoundItem.id =
        recsFor recStore gateLostItem.id gateFoundItem.id ∧
      recsFor (findMatches recStore gateLostItem 0).1 gateLostItem.id gateFoundItem.id =
        recsFor recStore gateLostItem.id gateFoundItem.id) :=
  ⟨(C9_match_record_orientation recStore gateLostItem gateFoundItem gateLostItem 0
      gateLostItem.id gateFoundItem.id).2.2.1 rfl,
   (C9_match_record_orientation recStore gateLostItem gateFoundItem gateLostItem 0
      gateLostItem.id gateFoundItem.id).2.2.2.2 (by decide)⟩

-- ==================== C5 ====================

/-- C5 (amended): both Match Finders return at most 3 candidates, all at
or above the threshold, none whose `expiresAt` is present, nonzero and
before the invocation time (the JS truthiness test treats a zero timestamp
as "no expiry"), sorted by score descending, and stable: candidates of
equal score keep their retrieval order relative to the pre-sort list. -/
theorem C5_match_finder_contract (st : Store) (ni : Item) (now : Nat) (ks : List Str) (nl : Str) :
    ((rankedLost st ni now ks nl).length ≤ 3 ∧
     (∀ c ∈ rankedLost st ni now ks nl,
        MATCH_THRESHOLD ≤ c.score ∧ isExpired c.item.expiresAt now = false) ∧
     (rankedLost st ni now ks nl).Pairwise (fun a b => b.score ≤ a.score) ∧
     (∀ s : Int, List.Sublist
        ((rankedLost st ni now ks nl).filter (fun c => c.score == s))
        ((candidatesBy (fun f => calculateMatchScore
            { ni with keywords := some ks, normalizedLocation := some nl } f)
          (openOfType st (str "found")) now).filter (fun c => c.score == s)))) ∧
    ((rankedD st ni now).length ≤ 3 ∧
     (∀ c ∈ rankedD st ni now,
        MATCH_THRESHOLD ≤ c.score ∧ isExpired c.item.expiresAt now = false) ∧
     (rankedD st ni now).Pairwise (fun a b => b.score ≤ a.score) ∧
     (∀ s : Int, List.Sublist
        ((rankedD st ni now).filter (fun c => c.score == s))
        ((((openOfType st (if ni.type = str "lost" then str "found" else str "lost")).map
            (fun d => let r := calculateMatchScoreD ni d; (⟨d, r.score, r.matchDetails⟩ : Cand))).filter
          (fun m => decide (MATCH_THRESHOLD ≤ m.score) && keepExpiryD m.item.expiresAt now)).filter
          (fun c => c.score == s)))) := by
  refine ⟨⟨?_, ?_, ?_, ?_⟩, ?_, ?_, ?_, ?_⟩
  · exact List.length_take_le 3 _
  · intro c hc
    exact ⟨(mem_rankedLost hc).2.2, (mem_rankedLost hc).2.1⟩
  · exact (sorted_sortDesc _).sublist (List.take_sublist _ _)
  · intro s
    have h1 := (List.take_sublist 3 (sortDesc (candidatesBy (fun f => calculateMatchScore
        { ni with keywords := some ks, normalizedLocation := some nl } f)
      (openOfType st (str "found")) now))).filter (fun c => c.score == s)
    rwa [filter_sortDesc] at h1
  · exact List.length_take_le 3 _
  · intro c hc
    refine ⟨(mem_rankedD hc).2.2, ?_⟩
    have h := (mem_rankedD hc).2.1
    rw [keepExpiryD_eq_not_isExpired] at h
    cases hx : isExpired c.item.expiresAt now
    · rfl
    · rw [hx] at h
      cases h
  · exact (sorted_sortDesc _).sublist (List.take_sublist _ _)
  · intro s
    have h1 := (List.take_sublist 3 (sortDesc
      (((openOfType st (if ni.type = str "lost" then str "found" else str "lost")).map
          (fun d => let r := calculateMatchScoreD ni d; (⟨d, r.score, r.matchDetails⟩ : Cand))).filter
        (fun m => decide (MATCH_THRESHOLD ≤ m.score) && keepExpiryD m.item.expiresAt now)))).filter
      (fun c => c.score == s)
    rwa [filter_sortDesc] at h1

/-- C5 witness: the bound and the threshold/expiry facts at a concrete
pool. -/
theorem C5_match_finder_contract_witness :
    (rankedD gateStore gateLostItem 0).length ≤ 3 ∧
      (MATCH_THRESHOLD ≤ (⟨gateFoundItem, 70, ⟨true, true, 0, []⟩⟩ : Cand).score ∧
        isExpired (⟨gateFoundItem, 70, ⟨true, true, 0, []⟩⟩ : Cand).item.expiresAt 0 = false) :=
  ⟨(C5_match_finder_contract gateStore gateLostItem 0 [] []).2.1,
   (C5_match_finder_contract gateStore gateLostItem 0 [] []).2.2.1
     ⟨gateFoundItem, 70, ⟨true, true, 0, []⟩⟩
     (by rw [gate_rankedD]; exact List.mem_singleton.2 rfl)⟩

/-- C5 counterexample: a candidate carrying the epoch timestamp
`expiresAt = 0` — which lies before the invocation time `now = 1` — is
returned by the Match Finder because `expiresAt && expiresAt < now` is
falsy at 0. -/
theorem C5_expired_epoch_counterexample :
    rankedLost gateStoreExpired0 gateLostItem 1
        (extractKeywords (gateLostItem.title ++ str " " ++ gateLostItem.description))
        (normalizeLocation gateLostItem.location) =
      [⟨gateFoundItemExpired0, 70, ⟨true, true, 0, []⟩⟩] ∧
    gateFoundItemExpired0.expiresAt = some 0 ∧ (0 : Nat) < 1 := by
  refine ⟨?_, rfl, by decide⟩
  unfold rankedLost
  have hpool : openOfType gateStoreExpired0 (str "found") = [gateFoundItemExpired0] := by
    decide
  rw [hpool]
  unfold candidatesBy
  simp only [List.filterMap_cons, List.filterMap_nil]
  rw [gate_score_server_exp0]
  decide

-- ==================== C3 ====================

theorem notifyLoopE_append (dE : Store → Item → Item → Int → MatchDetails → Except Unit Store)
    (pE : Cand → Item × Item) :
    ∀ (cs xs : List Cand) (st : Store) (n : Nat),
      notifyLoopE dE pE (cs ++ xs) st n =
        match notifyLoopE dE pE cs st n with
        | .error e => .error e
        | .ok r => notifyLoopE dE pE xs r.1 r.2 := by
  intro cs
  induction cs with
  | nil => intro xs st n; rfl
  | cons c cs ih =>
    intro xs st n
    rw [List.cons_append, notifyLoopE, notifyLoopE]
    split
    · exact ih xs st n
    · rcases hde : dE st (pE c).1 (pE c).2 c.score c.md with e | st'
      · rfl
      · exact ih xs st' (n + 1)

/-- C3 (amended): there is no try/catch around the awaited dispatch, so
the first failing dispatch aborts the pass: over `cs ++ c :: rest`, once
the prefix succeeds and the novel candidate `c` fails its write, the run
returns the error state reached just before `c`, whatever `rest` is — the
remaining candidates are neither checked nor dispatched. -/
theorem C3_dispatch_failure_aborts (failing : List Nat) (L : Item) (cs rest : List Cand)
    (c : Cand) (st st' : Store) (n n' : Nat)
    (hok : notifyLoopE (createNotificationE failing) (pairLost L) cs st n = .ok (st', n'))
    (hnov : matchExists st' L.id c.item.id = false)
    (hfail : c.item.id ∈ failing) :
    notifyLoopE (createNotificationE failing) (pairLost L) (cs ++ c :: rest) st n =
      .error (st', n') := by
  rw [notifyLoopE_append, hok]
  show notifyLoopE (createNotificationE failing) (pairLost L) (c :: rest) st' n' = _
  rw [notifyLoopE]
  rw [if_neg (by simp [pairLost, hnov])]
  rw [createNotificationE]
  rw [if_pos (show (pairLost L c).2.id ∈ failing from hfail)]

/-- C3 witness: the abort applied at a concrete failing candidate. -/
theorem C3_dispatch_failure_aborts_witness :
    notifyLoopE (createNotificationE [2]) (pairLost gateLostItem)
      ([] ++ (⟨gateFoundItem, 70, mdSample⟩ : Cand) :: [⟨gateFoundItem2, 70, mdSample⟩])
      emptyStore 0 = .error (emptyStore, 0) :=
  C3_dispatch_failure_aborts [2] gateLostItem [] [⟨gateFoundItem2, 70, mdSample⟩]
    ⟨gateFoundItem, 70, mdSample⟩ emptyStore emptyStore 0 0 rfl (by decide) (by decide)

/-- C3 counterexample: with candidate 1's write failing, candidate 2 —
novel, distinct-owner, and dispatchable on its own — is never processed;
the claim's promised isolation does not happen. -/
theorem C3_failure_stops_rest_counterexample :
    notifyLoopE (createNotificationE [2]) (pairLost gateLostItem)
        [⟨gateFoundItem, 70, mdSample⟩, ⟨gateFoundItem2, 70, mdSample⟩] emptyStore 0 =
      .error (emptyStore, 0) ∧
    notifyLoopE (createNotificationE [2]) (pairLost gateLostItem)
        [⟨gateFoundItem2, 70, mdSample⟩] emptyStore 0 =
      .ok (createNotification emptyStore gateLostItem gateFoundItem2 70 mdSample, 1) ∧
    (createNotification emptyStore gateLostItem gateFoundItem2 70 mdSample).notifications.length
      = 1 := by
  refine ⟨?_, ?_, ?_⟩
  · rfl
  · rfl
  · decide

end LostFound
